import Mathlib

/-!
Verification of the FinSight multi-agent analysis pipeline.

A shallow embedding of the repository's core: the orchestration engine
(`src/src/orchestrator.py`), the per-stage report formatter
(`FinSightOrchestrator._format_agent_report` and `_generate_final_report`),
and the report extractor (`src/api.py`, class `FinSightAPI`).

Python strings are modelled as `String` / `List Char`; Python floats are
modelled as `ℚ` (the values handled by the pipeline are small decimals, so
exact rational arithmetic agrees with the observable formatting behaviour);
Python functions that can raise are modelled as `Except String`.

The extractor relies on `re` regular expressions.  Each concrete pattern of
the source is embedded as an executable scanning function with Python `re`
semantics: leftmost match, greedy `\s*` and class-`+` quantifiers with
backtracking, non-greedy `(.*?)` realised as shortest-capture-first with the
full continuation, and `re.findall` resuming after the consumed match.
-/

namespace FinSight

/-! ## Python string helpers -/

/-- Python whitespace (`\s` class; also the default set of `str.strip`). -/
def isPySpace (c : Char) : Bool :=
  c == ' ' || c == '\t' || c == '\n' || c == '\r' ||
  c == Char.ofNat 11 || c == Char.ofNat 12

/-- The `\w` class (the artifact texts are ASCII, so `[A-Za-z0-9_]`). -/
def isWordC (c : Char) : Bool := c.isAlphanum || c == '_'

/-- The `[\d.]` class. -/
def isNumDotC (c : Char) : Bool := c.isDigit || c == '.'

/-- The `[-\d.]` class. -/
def isNumDotDashC (c : Char) : Bool := c.isDigit || c == '.' || c == '-'

/-- Python `str.strip()` on a char list. -/
def pyStrip (s : List Char) : List Char :=
  ((s.dropWhile isPySpace).reverse.dropWhile isPySpace).reverse

/-- Python `str.strip(chars)`: remove any of `cs` from both ends. -/
def pyStripSet (cs : List Char) (s : List Char) : List Char :=
  ((s.dropWhile (cs.contains ·)).reverse.dropWhile (cs.contains ·)).reverse

/-- Python `str.lower()` (ASCII). -/
def pyLower (s : List Char) : List Char := s.map Char.toLower

/-- Python `str.upper()` (ASCII). -/
def pyUpper (s : String) : String := String.mk (s.data.map Char.toUpper)

/-- Python `str.split(sep)` for a one-character separator, keeping empties. -/
def splitOnC (sep : Char) : List Char → List (List Char)
  | [] => [[]]
  | c :: t =>
    if c = sep then [] :: splitOnC sep t
    else
      match splitOnC sep t with
      | [] => [[c]]
      | l :: ls => (c :: l) :: ls

/-- Value of a digit string (used for both `int(...)` and float mantissas). -/
def digitsVal (l : List Char) : Nat :=
  l.foldl (fun a c => 10 * a + (c.toNat - '0'.toNat)) 0

/-- Python `float(s)` restricted to the strings producible by the numeric
capture classes `[-\d.]+` / `[\d.]+`: an optional leading minus, then digits
with at most one dot and at least one digit.  `none` models `ValueError`. -/
def pyFloatPos (s : List Char) : Option ℚ :=
  if s.all isNumDotC && decide (s.count '.' ≤ 1) && s.any Char.isDigit then
    let ip := s.takeWhile Char.isDigit
    let rest := s.drop ip.length
    let fp := match rest with
      | [] => ([] : List Char)
      | _ :: t => t
    some (mkRat ((digitsVal ip) * 10 ^ fp.length + digitsVal fp) (10 ^ fp.length))
  else none

def pyFloat : List Char → Option ℚ
  | '-' :: rest => (pyFloatPos rest).map Neg.neg
  | s => pyFloatPos s

/-! ## Regex scanning combinators (Python `re` semantics) -/

/-- Match a literal; return the remainder. -/
def lit (pat : String) (s : List Char) : Option (List Char) :=
  if pat.data.isPrefixOf s then some (s.drop pat.data.length) else none

/-- Non-greedy `(.*?)` (DOTALL) with full continuation `k`: try the shortest
capture first and extend one character at a time until `k` accepts the rest. -/
def minCapGo (k : List Char → Option α) : List Char → List Char →
    Option (List Char × α)
  | acc, [] =>
    match k [] with
    | some a => some (acc.reverse, a)
    | none => none
  | acc, c :: t =>
    match k (c :: t) with
    | some a => some (acc.reverse, a)
    | none => minCapGo k (c :: acc) t

def minCap (k : List Char → Option α) (s : List Char) : Option (List Char × α) :=
  minCapGo k [] s

/-- Greedy `\s*` followed by continuation `k`: consume the longest whitespace
run first, then backtrack one character at a time. -/
def wsThenGo (k : List Char → Option α) : List Char → List Char → Option α
  | revWs, s =>
    match k s with
    | some a => some a
    | none =>
      match revWs with
      | [] => none
      | c :: t => wsThenGo k t (c :: s)

def wsThen (k : List Char → Option α) (s : List Char) : Option α :=
  wsThenGo k ((s.takeWhile isPySpace).reverse) (s.dropWhile isPySpace)

/-- Greedy `(C+)` for a char class disjoint from what follows it in every
pattern embedded here, so the maximal run is the unique viable capture. -/
def classPlus (p : Char → Bool) (s : List Char) :
    Option (List Char × List Char) :=
  let run := s.takeWhile p
  if run.isEmpty then none else some (run, s.drop run.length)

/-- `re.search`: try the matcher at each successive start position. -/
def searchGo (m : List Char → Option α) : List Char → Option α
  | [] => m []
  | c :: t =>
    match m (c :: t) with
    | some a => some a
    | none => searchGo m t

/-- `re.findall` for matchers that also return the remainder after the match
(all matchers used here consume at least one character per match). -/
def findAllGo (m : List Char → Option (α × List Char)) :
    Nat → List Char → List α
  | 0, _ => []
  | fuel + 1, s =>
    match searchGo m s with
    | none => []
    | some (a, rest) => a :: findAllGo m fuel rest

def findAll (m : List Char → Option (α × List Char)) (s : List Char) : List α :=
  findAllGo m (s.length + 1) s

/-- Bool substring test (Python `needle in hay`). -/
def subStr (needle : List Char) : List Char → Bool
  | [] => needle.isEmpty
  | c :: t => needle.isPrefixOf (c :: t) || subStr needle t

/-- Python `pat in s` on `String`s. -/
def containsStr (s pat : String) : Bool := subStr pat.data s.data

/-! ## Embedded patterns of `FinSightAPI._extract_metadata` and friends

Each definition below embeds one concrete regular expression of
`src/api.py`; the source pattern is quoted in the doc comment. -/

/-- `LABEL\s*(C+)` for a char class `C` disjoint from whatever follows. -/
def matchClassLabel (label : String) (p : Char → Bool) (s : List Char) :
    Option (List Char × List Char) :=
  (lit label s).bind fun s1 => wsThen (fun r => classPlus p r) s1

/-- `LABEL\s*([\d.]+)%` (percent-suffixed numeric field). -/
def matchPctLabel (label : String) (s : List Char) :
    Option (List Char × List Char) :=
  (lit label s).bind fun s1 =>
    wsThen (fun r =>
      (classPlus isNumDotC r).bind fun np =>
      (lit ("%") np.2).map fun r2 => (np.1, r2)) s1

/-- `LABEL\s*([^\n]+)` (rest-of-line field, at least one character). -/
def matchLineLabel (label : String) (s : List Char) :
    Option (List Char × List Char) :=
  (lit label s).bind fun s1 =>
    wsThen (fun r => classPlus (fun c => c != '\n') r) s1

/-- `LABEL\s*(.*?)(?:\n|\Z)` (possibly empty single-line capture). -/
def matchAnyLineLabel (label : String) (s : List Char) : Option (List Char) :=
  (lit label s).bind fun s1 =>
    wsThen (fun r => some (r.takeWhile (fun c => c != '\n'))) s1

/-- `HEADER(.*?)(?:T₁|T₂|…)` with DOTALL capture, optional `\Z` alternative;
returns the capture and the rest starting at the (unconsumed) terminator. -/
def matchSection (header : String) (terms : List String) (allowEnd : Bool)
    (s : List Char) : Option (List Char × List Char) :=
  (lit header s).bind fun s1 =>
    minCap (fun r =>
      if terms.any (fun t => t.data.isPrefixOf r) then some r
      else if allowEnd && r.isEmpty then some r else none) s1

/-- `LABEL\s*(.*?)(?:T₁|…|\Z)` (DOTALL capture after `\s*`). -/
def matchLabelCapTerm (label : String) (terms : List String) (allowEnd : Bool)
    (s : List Char) : Option (List Char × List Char) :=
  (lit label s).bind fun s1 =>
    wsThen (fun r =>
      minCap (fun r2 =>
        if terms.any (fun t => t.data.isPrefixOf r2) then some r2
        else if allowEnd && r2.isEmpty then some r2 else none) r) s1

/-- Convenience: run a section search over content, returning the capture. -/
def searchSec (header : String) (terms : List String) (allowEnd : Bool)
    (cs : List Char) : Option (List Char) :=
  (searchGo (matchSection header terms allowEnd) cs).map (·.1)

/-- The list-item lines of a section body: Python
`[line.strip('- ').strip() for line in text.split('\n')
  if line.strip().startswith('-')]`. -/
def bulletItems (text : List Char) : List String :=
  ((splitOnC '\n' text).filter fun l =>
    match pyStrip l with
    | '-' :: _ => true
    | _ => false).map
    fun l => String.mk (pyStrip (pyStripSet ['-', ' '] l))

/-- Raise `ValueError` (as `Except.error`) when a matched numeric capture is
not a valid Python float. -/
def floatConv (v : Option (List Char)) : Except String (Option ℚ) :=
  match v with
  | none => Except.ok none
  | some cs =>
    match pyFloat cs with
    | some q => Except.ok (some q)
    | none => Except.error ("ValueError: could not convert string to float")

/-- As `floatConv` but substituting a default for an absent capture. -/
def floatOrD (v : Option (List Char)) (dflt : ℚ) : Except String ℚ :=
  match v with
  | none => Except.ok dflt
  | some cs =>
    match pyFloat cs with
    | some q => Except.ok q
    | none => Except.error ("ValueError: could not convert string to float")

/-- The metadata dictionary built by `FinSightAPI._extract_metadata`:
one optional entry per label pattern. -/
structure PyMeta where
  ticker : Option String := none
  generated : Option String := none
  agent : Option String := none
  sentiment : Option String := none
  score : Option ℚ := none
  confidence : Option ℚ := none
  total_events : Option Nat := none
  verified_events : Option Nat := none
  predicted_volatility : Option String := none
  volatility_score : Option ℚ := none
  historical_volatility : Option ℚ := none
deriving Repr, DecidableEq

/-- `FinSightAPI._extract_metadata` (src/api.py lines 34–67).  Patterns, in
dict order: `**Ticker:** (\w+)`, `**Generated:** ([^\n]+)`,
`**Agent:** ([^\n]+)`, `**Sentiment:** (\w+)`, `**Score:** ([-\d.]+)`,
`**Confidence:** ([\d.]+)%`, `**Total Events Found:** (\d+)`,
`**Verified Events:** (\d+)`, `**Predicted Volatility:** (\w+)`,
`**Volatility Score:** ([\d.]+)`, `**Historical Volatility:** ([\d.]+)%`
(each label preceded by `\*\*`…`\*\*\s*`).  The numeric `float(...)` coercions
can raise `ValueError`. -/
def extractMetadata (content : String) : Except String PyMeta := do
  let cs := content.data
  let tk := (searchGo (matchClassLabel ("**Ticker:**") isWordC) cs).map
    fun x => String.mk x.1
  let gen := (searchGo (matchLineLabel ("**Generated:**")) cs).map
    fun x => String.mk x.1
  let ag := (searchGo (matchLineLabel ("**Agent:**")) cs).map
    fun x => String.mk x.1
  let sent := (searchGo (matchClassLabel ("**Sentiment:**") isWordC) cs).map
    fun x => String.mk x.1
  let sc ← floatConv
    ((searchGo (matchClassLabel ("**Score:**") isNumDotDashC) cs).map (·.1))
  let conf ← floatConv
    ((searchGo (matchPctLabel ("**Confidence:**")) cs).map (·.1))
  let te := (searchGo (matchClassLabel ("**Total Events Found:**") Char.isDigit) cs).map
    fun x => digitsVal x.1
  let ve := (searchGo (matchClassLabel ("**Verified Events:**") Char.isDigit) cs).map
    fun x => digitsVal x.1
  let pv := (searchGo (matchClassLabel ("**Predicted Volatility:**") isWordC) cs).map
    fun x => String.mk x.1
  let vs ← floatConv
    ((searchGo (matchClassLabel ("**Volatility Score:**") isNumDotC) cs).map (·.1))
  let hv ← floatConv
    ((searchGo (matchPctLabel ("**Historical Volatility:**")) cs).map (·.1))
  return { ticker := tk, generated := gen, agent := ag, sentiment := sent,
           score := sc, confidence := conf, total_events := te,
           verified_events := ve, predicted_volatility := pv,
           volatility_score := vs, historical_volatility := hv }

/-! ## `FinSightAPI.analyze_sentiment` (text part) -/

/-- The dictionary returned by `analyze_sentiment` (src/api.py 120–130). -/
structure SentimentExtract where
  ticker : String
  sentiment : String
  score : ℚ
  confidence : ℚ
  market_summary : String
  key_drivers : List String
  tool_validations : List String
  news_headlines : List String
  generated : String
deriving Repr, DecidableEq

/-- The extraction `analyze_sentiment` performs on an artifact text
(src/api.py 88–130): `_extract_metadata`, the `## Market Sentiment` and
`## Key Sentiment Drivers` sections, the `**Tool Validations:**` and
`**News Headlines Analyzed:**` label sections, with the documented defaults
(`positive` / `0.75` / `85.0`). -/
def analyzeSentimentText (ticker now content : String) :
    Except String SentimentExtract := do
  let md ← extractMetadata content
  let cs := content.data
  let ms := match searchSec ("## Market Sentiment\n\n") ["\n\n##"] false cs with
    | some cap => String.mk (pyStrip cap)
    | none => ""
  let kd := match searchSec ("## Key Sentiment Drivers\n\n") ["\n\n##"] false cs with
    | some cap => bulletItems (pyStrip cap)
    | none => []
  let tv := match searchSec ("**Tool Validations:**\n") ["\n\n##", "\n\n---"] true cs with
    | some cap => bulletItems (pyStrip cap)
    | none => []
  let nh := match searchSec ("**News Headlines Analyzed:**\n") ["\n\n**", "\n\n##"] true cs with
    | some cap => bulletItems (pyStrip cap)
    | none => []
  return { ticker := md.ticker.getD ticker,
           sentiment := md.sentiment.getD ("positive"),
           score := md.score.getD (mkRat 75 100),
           confidence := md.confidence.getD (mkRat 85 1),
           market_summary := ms, key_drivers := kd,
           tool_validations := tv, news_headlines := nh,
           generated := md.generated.getD now }

/-! ## `FinSightAPI.detect_events` (text part) -/

/-- One event dictionary of `detect_events` (src/api.py 169–175); the dict
key `type` is a Lean keyword, embedded here as `etype`. -/
structure EventDict where
  etype : String
  description : String
  impact : String
  source : String
  verified : Bool
deriving Repr, DecidableEq

/-- One match of `### Event \d+: (\w+)\n\n(.*?)\n\n(?:###|\n##|\Z)`
(DOTALL, src/api.py 156–160).  The alternation `(?:###|\n##|\Z)` is part of
the match, so `re.findall` resumes scanning after the consumed `###` of the
next section heading. -/
def matchEventSec (s : List Char) :
    Option ((List Char × List Char) × List Char) :=
  (lit ("### Event ") s).bind fun s1 =>
  (classPlus Char.isDigit s1).bind fun dp =>
  (lit (": ") dp.2).bind fun s2 =>
  (classPlus isWordC s2).bind fun tp =>
  (lit ("\n\n") tp.2).bind fun s3 =>
  (minCap (fun r =>
      (lit ("\n\n") r).bind fun r1 =>
        (lit ("###") r1) <|> (lit ("\n##") r1) <|>
          (if r1.isEmpty then some r1 else none)) s3).map
    fun bp => ((tp.1, bp.1), bp.2)

/-- `\*\*Description:\*\*\s*(.*?)\n` — not DOTALL, so the capture is the
run of non-newline characters after the greedy `\s*` (which backtracks,
yielding an empty capture when the description itself is empty). -/
def matchDescLabel (s : List Char) : Option (List Char) :=
  (lit ("**Description:**") s).bind fun s1 =>
    wsThen (fun r =>
      if r.any (fun c => c = '\n') then
        some (r.takeWhile (fun c => c != '\n'))
      else none) s1

/-- Build one event dict from a `(type, body)` section match
(src/api.py 162–176). -/
def buildEvent (sec : List Char × List Char) : EventDict :=
  let body := sec.2
  { etype := String.mk sec.1,
    description := ((searchGo matchDescLabel body).map String.mk).getD "",
    impact := ((searchGo (matchClassLabel ("**Impact:**") isWordC) body).map
        fun x => String.mk x.1).getD ("MEDIUM"),
    source := ((searchGo (matchClassLabel ("**Source:**") isWordC) body).map
        fun x => String.mk x.1).getD ("transcript"),
    verified := match (searchGo (matchClassLabel ("**Verified:**") isWordC) body) with
      | some x => pyLower x.1 == ("yes").data
      | none => true }

/-- The dictionary returned by `detect_events` (src/api.py 185–193). -/
structure EventExtract where
  ticker : String
  total_events : Nat
  verified_events : Nat
  confidence : ℚ
  events : List EventDict
  tool_validations : List String
  generated : String
deriving Repr, DecidableEq

/-- The extraction `detect_events` performs on an artifact text
(src/api.py 149–193).  Note the defaults: when `**Total Events Found:**` or
`**Verified Events:**` fail to match, the count defaults to `len(events)`,
the number of extracted `### Event N:` sections. -/
def detectEventsText (ticker now content : String) :
    Except String EventExtract := do
  let md ← extractMetadata content
  let cs := content.data
  let events := (findAll matchEventSec cs).map buildEvent
  let tv := match searchSec ("**Tool Validations:**\n") ["\n\n##", "\n\n---"] true cs with
    | some cap => bulletItems (pyStrip cap)
    | none => []
  return { ticker := ticker,
           total_events := md.total_events.getD events.length,
           verified_events := md.verified_events.getD events.length,
           confidence := md.confidence.getD (mkRat 90 1),
           events := events, tool_validations := tv,
           generated := md.generated.getD now }

/-! ## `FinSightAPI.predict_volatility` (text part) -/

/-- One insight dictionary of `predict_volatility` (src/api.py 254–260). -/
structure InsightDict where
  title : String
  question : String
  answer : String
  confidence : ℚ
deriving Repr, DecidableEq

/-- One match of
`#### (.*?)\n\*\*Question:\*\*\s*(.*?)\n\*\*Answer:\*\*\s*(.*?)\n\*\*Confidence:\*\*\s*([\d.]+)%`
(DOTALL, src/api.py 249–253), with the full continuation inside each
non-greedy capture so backtracking is faithful. -/
def matchInsight (s : List Char) :
    Option ((List Char × List Char × List Char × List Char) × List Char) :=
  (lit ("#### ") s).bind fun s1 =>
  (minCap (fun r =>
    (lit ("\n**Question:**") r).bind fun r1 =>
    wsThen (fun r2 =>
      minCap (fun r3 =>
        (lit ("\n**Answer:**") r3).bind fun r4 =>
        wsThen (fun r5 =>
          minCap (fun r6 =>
            (lit ("\n**Confidence:**") r6).bind fun r7 =>
            wsThen (fun r8 =>
              (classPlus isNumDotC r8).bind fun np =>
              (lit ("%") np.2).map fun r9 => (np.1, r9)) r7) r5) r4) r2) r1) s1).map
    fun x => ((x.1, x.2.1, x.2.2.1, x.2.2.2.1), x.2.2.2.2)

/-- The per-insight `float(confidence)` coercion and `.strip()` calls
(src/api.py 254–260). -/
def insightConv (x : List Char × List Char × List Char × List Char) :
    Except String InsightDict :=
  match pyFloat x.2.2.2 with
  | some q => Except.ok
      { title := String.mk (pyStrip x.1),
        question := String.mk (pyStrip x.2.1),
        answer := String.mk (pyStrip x.2.2.1),
        confidence := q }
  | none => Except.error ("ValueError: could not convert string to float")

/-- The dictionary returned by `predict_volatility` (src/api.py 262–274). -/
structure VolatilityExtract where
  ticker : String
  predicted_volatility : String
  volatility_score : ℚ
  historical_volatility : ℚ
  confidence : ℚ
  key_drivers : List String
  sentiment_impact : String
  event_impact : String
  tool_validations : List String
  transcript_insights : List InsightDict
  generated : String
deriving Repr, DecidableEq

/-- The extraction `predict_volatility` performs on an artifact text
(src/api.py 212–274), with the documented defaults
(`medium` / `0.65` / `20.0` / `85.0`). -/
def predictVolatilityText (ticker now content : String) :
    Except String VolatilityExtract := do
  let md ← extractMetadata content
  let cs := content.data
  let kd := match searchSec ("## Key Volatility Drivers\n\n") ["\n\n##"] false cs with
    | some cap => bulletItems (pyStrip cap)
    | none => []
  let si := match searchSec ("## Sentiment Impact\n\n") ["\n\n##"] false cs with
    | some cap => String.mk (pyStrip cap)
    | none => ""
  let ei := match searchSec ("## Event Impact\n\n") ["\n\n##"] false cs with
    | some cap => String.mk (pyStrip cap)
    | none => ""
  let tv := match searchSec ("**Tool Validations:**\n") ["\n\n###", "\n\n##"] true cs with
    | some cap => bulletItems (pyStrip cap)
    | none => []
  let insightsRaw := match searchSec ("### Transcript Insights\n\n") ["\n\n##", "\n\n---"] true cs with
    | some cap => findAll matchInsight (pyStrip cap)
    | none => []
  let ins ← insightsRaw.mapM insightConv
  return { ticker := ticker,
           predicted_volatility := md.predicted_volatility.getD ("medium"),
           volatility_score := md.volatility_score.getD (mkRat 65 100),
           historical_volatility := md.historical_volatility.getD (mkRat 20 1),
           confidence := md.confidence.getD (mkRat 85 1),
           key_drivers := kd, sentiment_impact := si, event_impact := ei,
           tool_validations := tv, transcript_insights := ins,
           generated := md.generated.getD now }

/-! ## `FinSightAPI.generate_final_report` (text part) -/

/-- `\*\*Sentiment:\*\*\s*(\w+)\s*\(Score:\s*([\d.]+),\s*Confidence:\s*([\d.]+)%\)`
(src/api.py 303): capture (label, score, confidence). -/
def matchSentSummary (s : List Char) :
    Option (List Char × List Char × List Char) :=
  (lit ("**Sentiment:**") s).bind fun s1 =>
  wsThen (fun r =>
    (classPlus isWordC r).bind fun wp =>
    (wsThen (fun r2 =>
      (lit ("(Score:") r2).bind fun r3 =>
      wsThen (fun r4 =>
        (classPlus isNumDotC r4).bind fun sp =>
        (lit (",") sp.2).bind fun r5 =>
        (wsThen (fun r6 =>
          (lit ("Confidence:") r6).bind fun r7 =>
          wsThen (fun r8 =>
            (classPlus isNumDotC r8).bind fun cp =>
            (lit ("%)") cp.2).map fun _ => cp.1) r7) r5).map
          fun conf => (sp.1, conf)) r3) wp.2).map
      fun p => (wp.1, p.1, p.2)) s1

/-- `\*\*Events Detected:\*\*\s*(\d+)\s*\((\d+)\s*verified,\s*Confidence:\s*([\d.]+)%\)`
(src/api.py 304): capture (total, verified, confidence). -/
def matchEventsSummary (s : List Char) :
    Option (List Char × List Char × List Char) :=
  (lit ("**Events Detected:**") s).bind fun s1 =>
  wsThen (fun r =>
    (classPlus Char.isDigit r).bind fun tp =>
    (wsThen (fun r2 =>
      (lit ("(") r2).bind fun r3 =>
      (classPlus Char.isDigit r3).bind fun vp =>
      (wsThen (fun r4 =>
        (lit ("verified,") r4).bind fun r5 =>
        wsThen (fun r6 =>
          (lit ("Confidence:") r6).bind fun r7 =>
          wsThen (fun r8 =>
            (classPlus isNumDotC r8).bind fun cp =>
            (lit ("%)") cp.2).map fun _ => cp.1) r7) r5) vp.2).map
        fun conf => (vp.1, conf)) tp.2).map
      fun p => (tp.1, p.1, p.2)) s1

/-- `\*\*Predicted Volatility:\*\*\s*(\w+)\s*\(Score:\s*([\d.]+),\s*Confidence:\s*([\d.]+)%\)`
(src/api.py 305): capture (label, score, confidence). -/
def matchVolSummary (s : List Char) :
    Option (List Char × List Char × List Char) :=
  (lit ("**Predicted Volatility:**") s).bind fun s1 =>
  wsThen (fun r =>
    (classPlus isWordC r).bind fun wp =>
    (wsThen (fun r2 =>
      (lit ("(Score:") r2).bind fun r3 =>
      wsThen (fun r4 =>
        (classPlus isNumDotC r4).bind fun sp =>
        (lit (",") sp.2).bind fun r5 =>
        (wsThen (fun r6 =>
          (lit ("Confidence:") r6).bind fun r7 =>
          wsThen (fun r8 =>
            (classPlus isNumDotC r8).bind fun cp =>
            (lit ("%)") cp.2).map fun _ => cp.1) r7) r5).map
          fun conf => (sp.1, conf)) r3) wp.2).map
      fun p => (wp.1, p.1, p.2)) s1

/-- One numbered plan item: `\d+\.\s*(.*?)(?=\n\d+\.|\Z)` (src/api.py 329);
the terminator is a lookahead, so it is not consumed. -/
def planLook (r : List Char) : Bool :=
  match r with
  | [] => true
  | '\n' :: t =>
    let ds := t.takeWhile Char.isDigit
    (!ds.isEmpty) && (".").data.isPrefixOf (t.drop ds.length)
  | _ => false

def matchPlanItem (s : List Char) : Option (List Char × List Char) :=
  (classPlus Char.isDigit s).bind fun dp =>
  (lit (".") dp.2).bind fun r1 =>
  wsThen (fun r2 =>
    minCap (fun r3 => if planLook r3 then some r3 else none) r2) r1

/-- The metacognitive-analysis dictionary (src/api.py 309–336). -/
structure MetaRec where
  user_intent : Option String := none
  analysis_plan : Option (List String) := none
  agents_invoked : Option String := none
  coordinator_confidence : Option ℚ := none
  reasoning : Option String := none
deriving Repr, DecidableEq

/-- Extraction of `## 1. Coordinator's Metacognitive Analysis`
(src/api.py 309–336); the `float(...)` on the coordinator confidence can
raise. -/
def extractMeta (cs : List Char) : Except String MetaRec := do
  match searchGo (matchSection
      ("## 1. Coordinator\x27s Metacognitive Analysis\n\n")
      ["\n\n---", "\n\n##"] false) cs with
  | none => return {}
  | some cap =>
    let mt := pyStrip cap.1
    let ui := (searchGo (matchLabelCapTerm ("**User Intent:**") ["\n\n**"] true) mt).map
      fun x => String.mk (pyStrip x.1)
    let plan := (searchGo (matchLabelCapTerm ("**Analysis Plan:**") ["\n\n**"] true) mt).map
      fun x => (findAll matchPlanItem (pyStrip x.1)).map
        fun it => String.mk (pyStrip it)
    let ai := (searchGo (matchAnyLineLabel ("**Agents Invoked:**")) mt).map
      fun x => String.mk (pyStrip x)
    let cc ← floatConv ((searchGo (matchPctLabel ("**Coordinator Confidence:**")) mt).map (·.1))
    let rs := (searchGo (matchLabelCapTerm ("**Reasoning:**") ["\n\n---"] true) mt).map
      fun x => String.mk (pyStrip x.1)
    return { user_intent := ui, analysis_plan := plan, agents_invoked := ai,
             coordinator_confidence := cc, reasoning := rs }

/-- The guardrails dictionary (src/api.py 358–385); `none` models the empty
dict when the section is absent. -/
structure GuardRec where
  checks_performed : Option Nat := none
  active_guardrails : List String := []
  operating_boundaries : List String := []
deriving Repr, DecidableEq

def extractGuardrails (cs : List Char) : Option GuardRec :=
  match searchGo (matchSection
      ("## 5. Guardrails and System Boundaries\n\n")
      ["\n\n---", "\n\n##"] false) cs with
  | none => none
  | some cap =>
    let gt := pyStrip cap.1
    let checks := (searchGo (matchClassLabel ("**Guardrail Checks Performed:**")
        Char.isDigit) gt).map fun x => digitsVal x.1
    let active := match searchSec ("**Active Guardrails:**\n") ["\n\n**"] true gt with
      | some c => bulletItems (pyStrip c)
      | none => []
    let bounds := match searchSec ("**Operating Boundaries:**\n") ["\n\n---"] true gt with
      | some c => bulletItems (pyStrip c)
      | none => []
    some { checks_performed := checks, active_guardrails := active,
           operating_boundaries := bounds }

/-- One confidence-summary row record (src/api.py 351–356). -/
structure RowRec where
  agent : String
  confidence : ℚ
  threshold : ℚ
  status : String
deriving Repr, DecidableEq

/-- The status cell test (src/api.py 349):
`'Pass' if 'âœ“' in cols[3] else 'Fail'`.  The literal in the source is the
three-character mojibake sequence U+00E2 U+0153 U+201C (the UTF-8 bytes of
`✓` read back as Latin-1/Windows-1252), not the checkmark `✓` (U+2713)
that the formatter writes. -/
def rowStatus (cell : String) : String :=
  if subStr ("âœ“").data cell.data then "Pass" else "Fail"

/-- `row.split('|')[1:-1]`, each column stripped. -/
def rowCols (row : List Char) : List (List Char) :=
  (((splitOnC '|' row).drop 1).dropLast).map pyStrip

/-- Per-row processing (src/api.py 343–356): rows with fewer than 4 columns
are skipped; the `float(...)` coercions (after `replace('%','')`) can raise. -/
def parseRow (row : List Char) : Except String (Option RowRec) :=
  let cols := rowCols row
  if h4 : 4 ≤ cols.length then
    let agent := cols.get ⟨0, by omega⟩
    let c1 := cols.get ⟨1, by omega⟩
    let c2 := cols.get ⟨2, by omega⟩
    let c3 := cols.get ⟨3, by omega⟩
    match pyFloat (c1.filter (fun x => x != '%')),
          pyFloat (c2.filter (fun x => x != '%')) with
    | some conf, some thr =>
      Except.ok (some { agent := String.mk agent, confidence := conf,
                        threshold := thr, status := rowStatus (String.mk c3) })
    | _, _ => Except.error ("ValueError: could not convert string to float")
  else Except.ok none

/-- `.*?\n` (not DOTALL): skip minimally up to and past the first newline. -/
def nlSkip (r : List Char) : Option (List Char) :=
  if r.any (fun c => c = '\n') then
    some ((r.dropWhile (fun c => c != '\n')).drop 1)
  else none

/-- One `\|.*?\n` row (capture includes the leading `|` and the newline). -/
def matchTableRowRaw (s : List Char) : Option (List Char × List Char) :=
  match s with
  | '|' :: t =>
    if t.any (fun c => c = '\n') then
      let row := t.takeWhile (fun c => c != '\n')
      some ('|' :: (row ++ ['\n']), (t.drop row.length).drop 1)
    else none
  | _ => none

def rowsPlusGo : Nat → List Char → (List Char × List Char)
  | 0, s => ([], s)
  | fuel + 1, s =>
    match matchTableRowRaw s with
    | none => ([], s)
    | some (row, rest) =>
      let more := rowsPlusGo fuel rest
      (row ++ more.1, more.2)

/-- `\|\s*Agent\s*\|\s*Confidence.*?\n\|.*?\n((?:\|.*?\n)+)`
(src/api.py 340): the header row, the separator row, then the greedy run of
data rows (the capture). -/
def matchTable (s : List Char) : Option (List Char × List Char) :=
  (lit ("|") s).bind fun s1 =>
  wsThen (fun r =>
    (lit ("Agent") r).bind fun r1 =>
    wsThen (fun r2 =>
      (lit ("|") r2).bind fun r3 =>
      wsThen (fun r4 =>
        (lit ("Confidence") r4).bind fun r5 =>
        (nlSkip r5).bind fun r6 =>
        (lit ("|") r6).bind fun r7 =>
        (nlSkip r7).bind fun r8 =>
        (matchTableRowRaw r8).map fun first =>
          let more := rowsPlusGo r8.length first.2
          (first.1 ++ more.1, more.2)) r3) r1) s1

/-- The confidence-summary list (src/api.py 338–356). -/
def confidenceRows (cs : List Char) : Except String (List RowRec) :=
  match searchGo matchTable cs with
  | none => Except.ok []
  | some grp =>
    let rows := splitOnC '\n' (pyStrip grp.1)
    (rows.mapM parseRow).map (·.filterMap id)

/-- The dictionary returned by `generate_final_report` (src/api.py 391–408). -/
structure FinalReportExtract where
  ticker : String
  generated : String
  version : String
  sentiment : String
  sentiment_score : ℚ
  sentiment_confidence : ℚ
  events_detected : Nat
  events_verified : Nat
  events_confidence : ℚ
  predicted_volatility : String
  volatility_score : ℚ
  volatility_confidence : ℚ
  historical_volatility : ℚ
  confidence_summary : List RowRec
  metacognitive_analysis : MetaRec
  guardrails : Option GuardRec
deriving Repr, DecidableEq

/-- The extraction `generate_final_report` performs on an artifact text
(src/api.py 293–408). -/
def generateFinalReportText (ticker now content : String) :
    Except String FinalReportExtract := do
  let cs := content.data
  let sentM := searchGo matchSentSummary cs
  let eventsM := searchGo matchEventsSummary cs
  let volM := searchGo matchVolSummary cs
  let histM := (searchGo (matchPctLabel ("**Historical Volatility:**")) cs).map (·.1)
  let meta ← extractMeta cs
  let rows ← confidenceRows cs
  let guard := extractGuardrails cs
  let genM := searchGo (matchLineLabel ("**Generated:**")) cs
  let verM := searchGo (matchLineLabel ("**System Version:**")) cs
  let sentiment_score ← floatOrD (sentM.map (·.2.1)) (mkRat 75 100)
  let sentiment_confidence ← floatOrD (sentM.map (·.2.2)) (mkRat 85 1)
  let events_confidence ← floatOrD (eventsM.map (·.2.2)) (mkRat 85 1)
  let volatility_score ← floatOrD (volM.map (·.2.1)) (mkRat 65 100)
  let volatility_confidence ← floatOrD (volM.map (·.2.2)) (mkRat 85 1)
  let historical_volatility ← floatOrD histM (mkRat 20 1)
  return { ticker := ticker,
           generated := (genM.map fun x => String.mk x.1).getD now,
           version := (verM.map fun x => String.mk x.1).getD ("1.0"),
           sentiment := (sentM.map fun x => String.mk x.1).getD ("positive"),
           sentiment_score := sentiment_score,
           sentiment_confidence := sentiment_confidence,
           events_detected := (eventsM.map fun x => digitsVal x.1).getD 0,
           events_verified := (eventsM.map fun x => digitsVal x.2.1).getD 0,
           events_confidence := events_confidence,
           predicted_volatility := (volM.map fun x => String.mk x.1).getD ("medium"),
           volatility_score := volatility_score,
           volatility_confidence := volatility_confidence,
           historical_volatility := historical_volatility,
           confidence_summary := rows,
           metacognitive_analysis := meta,
           guardrails := guard }

/-! ## Result types (src/src/models.py)

Pydantic `float` fields are embedded as `ℚ`, `int` as `Int`, `str` as
`String`.  The `Literal[...]` label fields carry no range validation in the
source beyond membership, and no numeric field declares `ge`/`le` bounds, so
they are embedded as unconstrained `String` / `ℚ` / `Int`. -/

structure SentimentAnalysisResult where
  overall_sentiment : String
  sentiment_score : ℚ
  market_sentiment : String
  key_sentiment_drivers : List String
  news_headlines : List String := []
  confidence : ℚ
  tool_validations : List String := []
deriving Repr, DecidableEq

structure SignificantEvent where
  event_type : String
  description : String
  mentioned_in_call : Bool
  verified : Bool
  source : String
  impact_assessment : String
deriving Repr, DecidableEq

structure SignificantEventDetectionResult where
  events : List SignificantEvent := []
  total_events_found : Int
  verified_count : Int
  confidence : ℚ
  tool_validations : List String := []
deriving Repr, DecidableEq

structure TranscriptAnalysisAnswer where
  category : String
  focus_item : String
  question : String
  answer : String
  confidence : ℚ
  relevant_quotes : List String := []
deriving Repr, DecidableEq

structure VolatilityPredictionResult where
  predicted_volatility : String
  volatility_score : ℚ
  transcript_insights : List TranscriptAnalysisAnswer := []
  key_volatility_drivers : List String := []
  sentiment_impact : String
  event_impact : String
  confidence : ℚ
  historical_volatility : ℚ := 0
  tool_validations : List String := []
deriving Repr, DecidableEq

structure GuardrailViolation where
  timestamp : String
  agent : String
  guardrail_type : String
  description : String
  action_taken : String
deriving Repr, DecidableEq

structure AgentCapability where
  agent_name : String
  capabilities : List String
  limitations : List String
  confidence_threshold : ℚ
deriving Repr, DecidableEq

structure FinSightSelfModel where
  system_name : String := "FinSight Agent"
  version : String := "1.0"
  mission : String
  agent_capabilities : List AgentCapability
  operating_boundaries : List String
  min_confidence_for_recommendation : ℚ := mkRat 7 10
  active_guardrails : List String
  guardrail_violations : List GuardrailViolation := []
deriving Repr, DecidableEq

structure MetacognitiveDecision where
  user_intent : String
  analysis_plan : List String
  agents_to_invoke : List String
  confidence : ℚ
  reasoning : String
deriving Repr, DecidableEq

/-- `get_default_self_model()` (src/src/models.py 174–231).  The decimal
threshold literals 0.65 / 0.7 / 0.6 are written as exact rationals. -/
def getDefaultSelfModel : FinSightSelfModel :=
  { mission := "Provide comprehensive, multi-agent financial analysis of earnings calls while maintaining transparency, accuracy, and ethical boundaries",
    agent_capabilities := [
      { agent_name := "Sentiment Analysis Agent",
        capabilities := [
          "Analyze sentiment from earnings call transcripts",
          "Correlate with market news sentiment using Tavily",
          "Identify sentiment drivers and trends"],
        limitations := [
          "Cannot predict future sentiment with certainty",
          "Limited to English language sources"],
        confidence_threshold := mkRat 65 100 },
      { agent_name := "Significant Event Detection Agent",
        capabilities := [
          "Identify corporate events from transcripts",
          "Verify events against SEC filings using EDGAR",
          "Assess event materiality and impact"],
        limitations := [
          "Cannot access all global press releases",
          "SEC filings may have reporting delays"],
        confidence_threshold := mkRat 7 10 },
      { agent_name := "Volatility Prediction Agent",
        capabilities := [
          "Extract structured insights from transcripts",
          "Analyze multi-modal signals",
          "Validate predictions using yfinance market data"],
        limitations := [
          "Cannot guarantee prediction accuracy",
          "Subject to unforeseen market shocks"],
        confidence_threshold := mkRat 6 10 }],
    operating_boundaries := [
      "NO personalized investment advice or stock recommendations",
      "NO guarantees about future stock performance",
      "All outputs are for educational and analytical purposes only",
      "Must disclose confidence levels and limitations"],
    active_guardrails := [
      "Confidence threshold enforcement",
      "Source verification requirement",
      "Investment advice prohibition",
      "Transparent limitation disclosure"] }

/-! ## Python number / text formatting -/

def pad2 (k : Nat) : String := if k < 10 then "0" ++ toString k else toString k

/-- Round `q · scale` to the nearest integer, ties to even (the rounding of
Python `format`). -/
def scaledRound (q : ℚ) (scale : Nat) : Int :=
  let n : Int := q.num * (scale : Int)
  let d : Int := (q.den : Int)
  let f : Int := Int.fdiv n d
  let r : Int := n - f * d
  if 2 * r < d then f
  else if d < 2 * r then f + 1
  else if f % 2 = 0 then f else f + 1

def fmtScaled (n : Int) : String :=
  (if n < 0 then "-" else "") ++ toString (n.natAbs / 100) ++ "." ++
    pad2 (n.natAbs % 100)

/-- Python `f"{q:.2f}"`. -/
def fmt2 (q : ℚ) : String := fmtScaled (scaledRound q 100)

/-- Python `f"{q:.2%}"`. -/
def pct2 (q : ℚ) : String := fmtScaled (scaledRound q 10000) ++ "%"

/-- Python `str(i)` for `int`. -/
def intStr (n : Int) : String :=
  (if n < 0 then "-" else "") ++ toString n.natAbs

def strConcat : List String → String
  | [] => ""
  | x :: t => x ++ strConcat t

def joinSep (sep : String) : List String → String
  | [] => ""
  | [x] => x
  | x :: y :: t => x ++ sep ++ joinSep sep (y :: t)

/-- `chr(10).join(f'- {v}' for v in l)`. -/
def dashJoin (l : List String) : String :=
  joinSep ("\n") (l.map fun x => "- " ++ x)

/-- `chr(10).join(…) if l else alt`. -/
def dashJoinOr (l : List String) (alt : String) : String :=
  if l.isEmpty then alt else dashJoin l

/-- A run of `report += f"- {x}\n"` lines. -/
def linesOf (l : List String) : String :=
  strConcat (l.map fun x => "- " ++ x ++ "\n")

/-! ## Per-stage report formatter
(`FinSightOrchestrator._format_agent_report`, orchestrator.py 325–444) -/

/-- The `sentiment` branch (orchestrator.py 329–359). -/
def formatSentimentReport (ticker now : String) (r : SentimentAnalysisResult) :
    String :=
  "# Sentiment Analysis Report\n\n**Ticker:** " ++ ticker ++
  "  \n**Generated:** " ++ now ++
  "  \n**Agent:** Sentiment Analysis Agent\n\n---\n\n## Overall Assessment\n\n- **Sentiment:** " ++
  r.overall_sentiment ++
  "\n- **Score:** " ++ fmt2 r.sentiment_score ++
  " (range: -1.0 to 1.0)\n- **Confidence:** " ++ pct2 r.confidence ++
  "\n\n## Market Sentiment\n\n" ++ r.market_sentiment ++
  "\n\n## Key Sentiment Drivers\n\n" ++ dashJoin r.key_sentiment_drivers ++
  "\n\n## News Headlines Analyzed\n\n" ++ dashJoinOr r.news_headlines ("None") ++
  "\n\n## Tool Validations\n\n" ++ dashJoinOr r.tool_validations ("None") ++ "\n"

/-- One block of the `events_section` accumulator (orchestrator.py 363–372). -/
def eventBlock (i : Nat) (e : SignificantEvent) : String :=
  "\n### Event " ++ toString i ++ ": " ++ e.event_type ++
  "\n\n- **Description:** " ++ e.description ++
  "\n- **Mentioned in Call:** " ++ (if e.mentioned_in_call then "Yes" else "No") ++
  "\n- **Verified:** " ++ (if e.verified then "Yes" else "No") ++
  "\n- **Source:** " ++ e.source ++
  "\n- **Impact:** " ++ pyUpper e.impact_assessment ++ "\n"

def eventBlocksGo (i : Nat) : List SignificantEvent → String
  | [] => ""
  | e :: t => eventBlock i e ++ eventBlocksGo (i + 1) t

/-- The `event_detection` branch (orchestrator.py 361–395). -/
def formatEventReport (ticker now : String)
    (r : SignificantEventDetectionResult) : String :=
  let events_section := eventBlocksGo 1 r.events
  "# Event Detection Report\n\n**Ticker:** " ++ ticker ++
  "  \n**Generated:** " ++ now ++
  "  \n**Agent:** Significant Event Detection Agent\n\n---\n\n## Summary\n\n- **Total Events Found:** " ++
  intStr r.total_events_found ++
  "\n- **Verified Events:** " ++ intStr r.verified_count ++
  "\n- **Confidence:** " ++ pct2 r.confidence ++
  "\n\n## Detected Events\n\n" ++
  (if events_section.data.isEmpty then "*No events detected*" else events_section) ++
  "\n\n## Tool Validations\n\n" ++ dashJoinOr r.tool_validations ("None") ++ "\n"

/-! ## Final report generator
(`FinSightOrchestrator._generate_final_report`, orchestrator.py 117–310).
Each definition below covers one contiguous `report += …` region of the
source; `generateFinalReport` concatenates them in source order. -/

/-- The guardrail status cell (orchestrator.py 289, 294, 299):
`"✓ Pass" if confidence >= threshold else "⚠ Low"`. -/
def guardrailStatus (confidence threshold : ℚ) : String :=
  if threshold ≤ confidence then "✓ Pass" else "⚠ Low"

/-- `self_model.agent_capabilities[i].confidence_threshold`; the engine's
self-model always has three capabilities, so the Python index never faults. -/
def capThreshold (sm : FinSightSelfModel) (i : Nat) : ℚ :=
  ((sm.agent_capabilities.get? i).map (·.confidence_threshold)).getD 0

/-- Header and Executive Summary block (orchestrator.py 119–156). -/
def reportTop (now ticker version : String)
    (sent : Option SentimentAnalysisResult)
    (events : Option SignificantEventDetectionResult)
    (vol : Option VolatilityPredictionResult) : String :=
  "# FinSight Multi-Agent Analysis Report\n\n**Generated:** " ++ now ++
  "  \n**Company:** " ++ ticker ++ "  \n**System Version:** " ++ version ++
  "\n\n---\n\n## Executive Summary\n\n- **Sentiment:** " ++
  (match sent with | some s => s.overall_sentiment | none => "N/A") ++
  " (Score: " ++ (match sent with | some s => fmt2 s.sentiment_score | none => "0.00") ++
  ", Confidence: " ++ (match sent with | some s => pct2 s.confidence | none => "0%") ++
  ")\n- **Events Detected:** " ++
  (match events with | some e => intStr e.total_events_found | none => "0") ++
  " (" ++ (match events with | some e => intStr e.verified_count | none => "0") ++
  " verified, Confidence: " ++
  (match events with | some e => pct2 e.confidence | none => "0%") ++
  ")\n- **Predicted Volatility:** " ++
  (match vol with | some v => v.predicted_volatility | none => "N/A") ++
  " (Score: " ++ (match vol with | some v => fmt2 v.volatility_score | none => "0.00") ++
  ", Confidence: " ++ (match vol with | some v => pct2 v.confidence | none => "0%") ++
  ")\n- **Historical Volatility:** " ++
  (match vol with | some v => pct2 v.historical_volatility | none => "0%") ++
  "\n\n---\n\n## 1. Coordinator\x27s Metacognitive Analysis\n\n"

/-- `step.lstrip('0123456789. ')` and the numbered plan lines
(orchestrator.py 163–166). -/
def planSteps (i : Nat) : List String → String
  | [] => ""
  | st :: t =>
    toString i ++ ". " ++
    String.mk (st.data.dropWhile (("0123456789. ").data.contains ·)) ++ "\n" ++
    planSteps (i + 1) t

/-- The coordinator block (orchestrator.py 158–170); empty when no decision. -/
def coordSection (decision : Option MetacognitiveDecision) : String :=
  match decision with
  | none => ""
  | some d =>
    "**User Intent:** " ++ d.user_intent ++ "\n\n**Analysis Plan:**\n" ++
    planSteps 1 d.analysis_plan ++
    "\n**Agents Invoked:** " ++ joinSep (", ") d.agents_to_invoke ++ "\n" ++
    "**Coordinator Confidence:** " ++ pct2 d.confidence ++ "\n" ++
    "\n**Reasoning:** " ++ d.reasoning ++ "\n"

/-- Section 2 body (orchestrator.py 174–197). -/
def sentSection (sent : Option SentimentAnalysisResult) : String :=
  match sent with
  | none => "*Sentiment analysis not available.*\n"
  | some s =>
    "**Overall Sentiment:** " ++ s.overall_sentiment ++
    "  \n**Sentiment Score:** " ++ fmt2 s.sentiment_score ++
    " (range: -1.0 to 1.0)  \n**Confidence:** " ++ pct2 s.confidence ++
    "\n\n**Market Sentiment Summary:**\n" ++ s.market_sentiment ++
    "\n\n**Key Sentiment Drivers:**\n" ++ linesOf s.key_sentiment_drivers ++
    (if s.news_headlines.isEmpty then "" else
      "\n**News Headlines Analyzed:**\n" ++ linesOf s.news_headlines) ++
    (if s.tool_validations.isEmpty then "" else
      "\n**Tool Validations:**\n" ++ linesOf s.tool_validations)

/-- One event block of section 3 (orchestrator.py 208–217); note the label
`**Impact Assessment:**` (the per-stage formatter writes `**Impact:**`). -/
def finalEventBlock (i : Nat) (e : SignificantEvent) : String :=
  "\n### Event " ++ toString i ++ ": " ++ e.event_type ++
  "\n\n- **Description:** " ++ e.description ++
  "\n- **Mentioned in Call:** " ++ (if e.mentioned_in_call then "Yes" else "No") ++
  "\n- **Verified:** " ++ (if e.verified then "Yes" else "No") ++
  "\n- **Source:** " ++ e.source ++
  "\n- **Impact Assessment:** " ++ pyUpper e.impact_assessment ++ "\n"

def finalEventBlocks (i : Nat) : List SignificantEvent → String
  | [] => ""
  | e :: t => finalEventBlock i e ++ finalEventBlocks (i + 1) t

/-- Section 3 body (orchestrator.py 201–224). -/
def eventsSectionF (events : Option SignificantEventDetectionResult) : String :=
  match events with
  | none => "*Event detection not available.*\n"
  | some ev =>
    "**Total Events Found:** " ++ intStr ev.total_events_found ++
    "  \n**Verified Events:** " ++ intStr ev.verified_count ++
    "  \n**Confidence:** " ++ pct2 ev.confidence ++
    "\n\n**Detected Events:**\n" ++ finalEventBlocks 1 ev.events ++
    (if ev.tool_validations.isEmpty then "" else
      "\n**Tool Validations:**\n" ++ linesOf ev.tool_validations)

/-- One transcript-insight block (orchestrator.py 250–255). -/
def insightBlock (ins : TranscriptAnalysisAnswer) : String :=
  "#### " ++ ins.focus_item ++ "\n**Question:** " ++ ins.question ++
  "  \n**Answer:** " ++ ins.answer ++ "  \n**Confidence:** " ++
  pct2 ins.confidence ++ "\n\n"

/-- Section 4 body (orchestrator.py 228–257). -/
def volSection (vol : Option VolatilityPredictionResult) : String :=
  match vol with
  | none => "*Volatility prediction not available.*\n"
  | some v =>
    "**Predicted Volatility:** " ++ v.predicted_volatility ++
    "  \n**Volatility Score:** " ++ fmt2 v.volatility_score ++
    " (range: 0.0 to 1.0)  \n**Historical Volatility:** " ++
    pct2 v.historical_volatility ++
    "  \n**Confidence:** " ++ pct2 v.confidence ++
    "\n\n**Key Volatility Drivers:**\n" ++ linesOf v.key_volatility_drivers ++
    "\n**Sentiment Impact:**\n" ++ v.sentiment_impact ++ "\n" ++
    "\n**Event Impact:**\n" ++ v.event_impact ++ "\n" ++
    (if v.tool_validations.isEmpty then "" else
      "\n**Tool Validations:**\n" ++ linesOf v.tool_validations) ++
    (if v.transcript_insights.isEmpty then "" else
      "\n### Transcript Insights\n\n" ++
        strConcat (v.transcript_insights.map insightBlock))

/-- One applied-guardrail block (orchestrator.py 265–269). -/
def guardBlock (g : GuardrailViolation) : String :=
  "- **" ++ g.guardrail_type ++ "** (" ++ g.agent ++ ")\n  - " ++
  g.description ++ "\n  - Action: " ++ g.action_taken ++ "\n"

/-- Section 5 body (orchestrator.py 261–279). -/
def guardSection (gs : List GuardrailViolation) (sm : FinSightSelfModel) :
    String :=
  "**Guardrail Checks Performed:** " ++ toString gs.length ++ "\n\n" ++
  (if gs.isEmpty then
    "*All confidence thresholds met. No guardrail violations detected.*\n"
   else strConcat (gs.map guardBlock)) ++
  "\n**Active Guardrails:**\n" ++ linesOf sm.active_guardrails ++
  "\n**Operating Boundaries:**\n" ++ linesOf sm.operating_boundaries

/-- One confidence table row (orchestrator.py 290, 295, 300). -/
def confRow (name : String) (conf thr : ℚ) : String :=
  "| " ++ name ++ " | " ++ pct2 conf ++ " | " ++ pct2 thr ++ " | " ++
  guardrailStatus conf thr ++ " |\n"

/-- Section 6 body (orchestrator.py 283–300). -/
def confTable (sm : FinSightSelfModel)
    (sent : Option SentimentAnalysisResult)
    (events : Option SignificantEventDetectionResult)
    (vol : Option VolatilityPredictionResult) : String :=
  "| Agent | Confidence | Threshold | Status |\n|-------|-----------|-----------|--------|\n" ++
  (match sent with
   | some s => confRow ("Sentiment Analysis") s.confidence (capThreshold sm 0)
   | none => "") ++
  (match events with
   | some e => confRow ("Event Detection") e.confidence (capThreshold sm 1)
   | none => "") ++
  (match vol with
   | some v => confRow ("Volatility Prediction") v.confidence (capThreshold sm 2)
   | none => "")

/-- Disclaimers block (orchestrator.py 302–308). -/
def disclaimers (sm : FinSightSelfModel) : String :=
  "**Mission:** " ++ sm.mission ++ "\n\n" ++
  "This analysis is for **informational and educational purposes only**. " ++
  "It does NOT constitute investment advice or a recommendation to buy or sell securities. " ++
  "Past performance does not guarantee future results. " ++
  "All investments involve risk, including possible loss of principal.\n\n" ++
  "**Generated by:** " ++ sm.system_name ++ " v" ++ sm.version ++ "\n"

/-- `_generate_final_report` (orchestrator.py 117–310). -/
def generateFinalReport (now ticker : String) (sm : FinSightSelfModel)
    (sent : Option SentimentAnalysisResult)
    (events : Option SignificantEventDetectionResult)
    (vol : Option VolatilityPredictionResult)
    (decision : Option MetacognitiveDecision)
    (gs : List GuardrailViolation) : String :=
  reportTop now ticker sm.version sent events vol ++
  coordSection decision ++
  "\n---\n\n## 2. Sentiment Analysis\n\n" ++
  sentSection sent ++
  "\n---\n\n## 3. Significant Event Detection\n\n" ++
  eventsSectionF events ++
  "\n---\n\n## 4. Volatility Prediction\n\n" ++
  volSection vol ++
  "\n---\n\n## 5. Guardrails and System Boundaries\n\n" ++
  guardSection gs sm ++
  "\n---\n\n## 6. System Confidence Summary\n\n" ++
  confTable sm sent events vol ++
  "\n---\n\n## Disclaimers\n\n" ++
  disclaimers sm

/-! ## File-level API operations (src/api.py)

The output directory is modelled as a list of persisted files; the glob and
`max(..., key=mtime)` of the source become a filter and a fold. -/

structure FileEntry where
  name : String
  mtime : Nat
  content : String
deriving Repr, DecidableEq

/-- `glob(f"{stage}_{ticker}_*.md")` membership for one file name. -/
def globMatch (pre : String) (name : String) : Bool :=
  pre.data.isPrefixOf name.data &&
  (".md").data.isSuffixOf (name.data.drop pre.data.length)

/-- `max(files, key=lambda p: p.stat().st_mtime)` (first of equal maxima). -/
def latestFile (f : FileEntry) (fs : List FileEntry) : FileEntry :=
  fs.foldl (fun best g => if best.mtime < g.mtime then g else best) f

/-- `FinSightAPI.analyze_sentiment` (src/api.py 69–130): `none` models the
Python `None` returned when no artifact matches the glob. -/
def analyzeSentimentFiles (ticker now : String) (files : List FileEntry) :
    Option (Except String SentimentExtract) :=
  match files.filter (fun f => globMatch ("sentiment_" ++ ticker ++ "_") f.name) with
  | [] => none
  | f :: t => some (analyzeSentimentText ticker now (latestFile f t).content)

/-- `FinSightAPI.detect_events` (src/api.py 132–193). -/
def detectEventsFiles (ticker now : String) (files : List FileEntry) :
    Option (Except String EventExtract) :=
  match files.filter (fun f => globMatch ("event_detection_" ++ ticker ++ "_") f.name) with
  | [] => none
  | f :: t => some (detectEventsText ticker now (latestFile f t).content)

/-- `FinSightAPI.predict_volatility` (src/api.py 195–274). -/
def predictVolatilityFiles (ticker now : String) (files : List FileEntry) :
    Option (Except String VolatilityExtract) :=
  match files.filter (fun f => globMatch ("volatility_" ++ ticker ++ "_") f.name) with
  | [] => none
  | f :: t => some (predictVolatilityText ticker now (latestFile f t).content)

/-- `FinSightAPI.generate_final_report` (src/api.py 276–408). -/
def generateFinalReportFiles (ticker now : String) (files : List FileEntry) :
    Option (Except String FinalReportExtract) :=
  match files.filter (fun f => globMatch ("final_report_" ++ ticker ++ "_") f.name) with
  | [] => none
  | f :: t => some (generateFinalReportText ticker now (latestFile f t).content)

/-! ## Orchestration engine (src/src/orchestrator.py)

The generative completion capability and the validation providers are the
external collaborators of the design; one `Oracle` value fixes their
behaviour for a run.  A stage's completion call either returns a
schema-shaped result (`Except.ok`) or fails (`Except.error msg`, the
SchemaViolation/stage failure caught by the agent's `try`). -/

structure Oracle where
  coordinatorOutcome : Except String MetacognitiveDecision
  transcriptContent : String
  newsHeadlines : List String
  sentimentOutcome : Except String SentimentAnalysisResult
  secFilingsChecked : Bool
  secFilingResults : String
  eventsOutcome : Except String SignificantEventDetectionResult
  marketValidationNotes : List String
  historicalVolatility : ℚ
  insights : List TranscriptAnalysisAnswer
  volatilityOutcome : Except String VolatilityPredictionResult

structure RunInput where
  user_query : String
  company_ticker : String
  transcript_path : String
deriving Repr, DecidableEq

/-- The LangGraph `GraphState` TypedDict (orchestrator.py 449–462), with the
keys fixed at run start inlined. -/
structure GraphState where
  user_query : String
  company_ticker : String
  transcript_path : String
  self_model : FinSightSelfModel
  metacognitive_decision : Option MetacognitiveDecision := none
  transcript_content : Option String := none
  sentiment_result : Option SentimentAnalysisResult := none
  event_detection_result : Option SignificantEventDetectionResult := none
  volatility_result : Option VolatilityPredictionResult := none
  final_report : Option String := none
  guardrails_applied : List GuardrailViolation := []
  errors : List String := []
deriving Repr, DecidableEq

/-- The partial update a node returns (`none` = key absent from the
returned dict). -/
structure StateUpdate where
  metacognitive_decision : Option MetacognitiveDecision := none
  transcript_content : Option String := none
  sentiment_result : Option SentimentAnalysisResult := none
  event_detection_result : Option SignificantEventDetectionResult := none
  volatility_result : Option VolatilityPredictionResult := none
  final_report : Option String := none
  guardrails_applied : Option (List GuardrailViolation) := none
  errors : Option (List String) := none
deriving Repr, DecidableEq

/-- The LangGraph merge for this `GraphState`: the TypedDict declares no
reducer annotations, so every channel is a `LastValue` channel — a key
present in the returned update replaces the stored value, list-valued keys
included; absent keys are kept. -/
def applyUpdate (s : GraphState) (u : StateUpdate) : GraphState :=
  { s with
    metacognitive_decision := u.metacognitive_decision <|> s.metacognitive_decision,
    transcript_content := u.transcript_content <|> s.transcript_content,
    sentiment_result := u.sentiment_result <|> s.sentiment_result,
    event_detection_result := u.event_detection_result <|> s.event_detection_result,
    volatility_result := u.volatility_result <|> s.volatility_result,
    final_report := u.final_report <|> s.final_report,
    guardrails_applied := u.guardrails_applied.getD s.guardrails_applied,
    errors := u.errors.getD s.errors }

/-- `CoordinatorAgent.process` (coordinator.py 17–56): on success it returns
the decision plus the unchanged `guardrails_applied`; on failure one
`Coordinator error: …` entry appended to the accumulated errors. -/
def coordinatorNode (o : Oracle) (s : GraphState) : StateUpdate :=
  match o.coordinatorOutcome with
  | .ok d => { metacognitive_decision := some d,
               guardrails_applied := some s.guardrails_applied }
  | .error e => { errors := some (s.errors ++ ["Coordinator error: " ++ e]) }

/-- `_load_transcript_node` (orchestrator.py 38–49): when the reader returns
an `Error…` string the update carries `errors = [content]` alone — it does
not include the previously accumulated errors. -/
def loadTranscriptNode (o : Oracle) (_s : GraphState) : StateUpdate :=
  if ("Error").data.isPrefixOf o.transcriptContent.data then
    { transcript_content := some "", errors := some [o.transcriptContent] }
  else
    { transcript_content := some o.transcriptContent }

/-- `SentimentAnalysisAgent.process` (sentiment.py 39–93). -/
def sentimentNode (o : Oracle) (s : GraphState) : StateUpdate :=
  match o.sentimentOutcome with
  | .ok r =>
    let r2 := if o.newsHeadlines.isEmpty then r else
      { r with news_headlines := o.newsHeadlines,
               tool_validations := r.tool_validations ++
                 ["Validated sentiment using " ++ toString o.newsHeadlines.length ++
                  " news articles from Tavily"] }
    { sentiment_result := some r2 }
  | .error e => { errors := some (s.errors ++ ["Sentiment analysis error: " ++ e]) }

/-- `EventDetectionAgent.process` (events.py 60–117). -/
def eventsNode (o : Oracle) (s : GraphState) : StateUpdate :=
  match o.eventsOutcome with
  | .ok r =>
    let r2 := if o.secFilingsChecked then
      { r with tool_validations := r.tool_validations ++
          ["Validated events using SEC EDGAR: " ++ o.secFilingResults] }
      else r
    { event_detection_result := some r2 }
  | .error e => { errors := some (s.errors ++ ["Event detection error: " ++ e]) }

/-- `VolatilityPredictionAgent.process` (volatility.py 91–169): the insight
answers and the market-data historical volatility are attached to the
completion result. -/
def volatilityNode (o : Oracle) (s : GraphState) : StateUpdate :=
  match o.volatilityOutcome with
  | .ok r =>
    let r2 := { r with transcript_insights := o.insights,
                       historical_volatility := o.historicalVolatility }
    let r3 := if o.marketValidationNotes.isEmpty then r2 else
      { r2 with tool_validations := r2.tool_validations ++
          ["Validated with yfinance: " ++ joinSep (", ") o.marketValidationNotes] }
    { volatility_result := some r3 }
  | .error e => { errors := some (s.errors ++ ["Volatility prediction error: " ++ e]) }

/-- `_synthesize_report_node` (orchestrator.py 102–115). -/
def synthesizeNode (now : String) (s : GraphState) : StateUpdate :=
  { final_report := some (generateFinalReport now s.company_ticker s.self_model
      s.sentiment_result s.event_detection_result s.volatility_result
      s.metacognitive_decision s.guardrails_applied) }

def step (n : Oracle → GraphState → StateUpdate) (o : Oracle)
    (s : GraphState) : GraphState :=
  applyUpdate s (n o s)

/-- The initial state of `run_analysis` (orchestrator.py 502–511). -/
def initialState (inp : RunInput) : GraphState :=
  { user_query := inp.user_query, company_ticker := inp.company_ticker,
    transcript_path := inp.transcript_path, self_model := getDefaultSelfModel }

/-- The states reached along the fixed linear workflow coordinator →
load_transcript → sentiment_analysis → event_detection →
volatility_prediction → synthesize_report (orchestrator.py 468–484). -/
def statesList (o : Oracle) (now : String) (inp : RunInput) : List GraphState :=
  let s0 := initialState inp
  let s1 := step coordinatorNode o s0
  let s2 := step loadTranscriptNode o s1
  let s3 := step sentimentNode o s2
  let s4 := step eventsNode o s3
  let s5 := step volatilityNode o s4
  let s6 := applyUpdate s5 (synthesizeNode now s5)
  [s0, s1, s2, s3, s4, s5, s6]

/-- `run_analysis` (orchestrator.py 486–542): the state after the terminal
node.  Every node is total, so every run reaches the end of the linear
workflow (the `Done` state). -/
def runAnalysis (o : Oracle) (now : String) (inp : RunInput) : GraphState :=
  let s5 := step volatilityNode o (step eventsNode o (step sentimentNode o
    (step loadTranscriptNode o (step coordinatorNode o (initialState inp)))))
  applyUpdate s5 (synthesizeNode now s5)

/-! ## Invariant predicates (spec §8 / §3) -/

/-- A confidence value lies in `[0, 1]`. -/
def confOK (q : ℚ) : Prop := 0 ≤ q ∧ q ≤ 1

instance (q : ℚ) : Decidable (confOK q) := inferInstanceAs (Decidable (_ ∧ _))

/-- A property holding of the payload of a successful completion call. -/
def exceptConf {α : Type} (P : α → Prop) : Except String α → Prop
  | .ok r => P r
  | .error _ => True

instance {α : Type} (P : α → Prop) [DecidablePred P] :
    (e : Except String α) → Decidable (exceptConf P e)
  | .ok r => inferInstanceAs (Decidable (P r))
  | .error _ => isTrue trivial

/-- Every schema-shaped value the completion capability returns in a run
satisfies the spec's invariants: confidences in `[0,1]`, verified-count at
most total-events. -/
def oracleConforms (o : Oracle) : Prop :=
  exceptConf (fun d : MetacognitiveDecision => confOK d.confidence)
    o.coordinatorOutcome ∧
  exceptConf (fun r : SentimentAnalysisResult => confOK r.confidence)
    o.sentimentOutcome ∧
  exceptConf (fun r : SignificantEventDetectionResult =>
    confOK r.confidence ∧ r.verified_count ≤ r.total_events_found)
    o.eventsOutcome ∧
  exceptConf (fun r : VolatilityPredictionResult => confOK r.confidence)
    o.volatilityOutcome ∧
  ∀ a ∈ o.insights, confOK a.confidence

instance (o : Oracle) : Decidable (oracleConforms o) := by
  unfold oracleConforms
  infer_instance

/-- All results stored in a run state satisfy the spec's invariants. -/
def stateConforms (s : GraphState) : Prop :=
  (∀ d ∈ s.metacognitive_decision, confOK d.confidence) ∧
  (∀ r ∈ s.sentiment_result, confOK r.confidence) ∧
  (∀ r ∈ s.event_detection_result,
    confOK r.confidence ∧ r.verified_count ≤ r.total_events_found) ∧
  (∀ r ∈ s.volatility_result,
    confOK r.confidence ∧ ∀ a ∈ r.transcript_insights, confOK a.confidence)

instance {ε α : Type} [DecidableEq ε] [DecidableEq α] :
    DecidableEq (Except ε α) := fun a b =>
  match a, b with
  | .ok x, .ok y =>
    match decEq x y with
    | isTrue h => isTrue (h ▸ rfl)
    | isFalse h => isFalse fun hc => h (by cases hc; rfl)
  | .error x, .error y =>
    match decEq x y with
    | isTrue h => isTrue (h ▸ rfl)
    | isFalse h => isFalse fun hc => h (by cases hc; rfl)
  | .ok _, .error _ => isFalse fun hc => Except.noConfusion hc
  | .error _, .ok _ => isFalse fun hc => Except.noConfusion hc

/-! ## Concrete run instances used in the claim theorems -/

/-- A well-formed two-event result (for the round-trip claim). -/
def evC1 : SignificantEventDetectionResult :=
  { events := [
      { event_type := "merger", description := "Acquired X",
        mentioned_in_call := true, verified := true, source := "filing",
        impact_assessment := "high" },
      { event_type := "launch", description := "New product",
        mentioned_in_call := false, verified := false, source := "transcript",
        impact_assessment := "low" }],
    total_events_found := 2, verified_count := 1, confidence := mkRat 9 10,
    tool_validations := ["v1"] }

/-- A well-formed sentiment result with headlines and validations. -/
def seC1 : SentimentAnalysisResult :=
  { overall_sentiment := "positive", sentiment_score := mkRat 8 10,
    market_sentiment := "Good vibes overall.",
    key_sentiment_drivers := ["growth", "margins"],
    news_headlines := ["h1", "h2"], confidence := mkRat 85 100,
    tool_validations := ["v1"] }

def dC2 : MetacognitiveDecision :=
  { user_intent := "Understand call", analysis_plan := ["analyze"],
    agents_to_invoke := ["sentiment_analysis"], confidence := mkRat 95 100,
    reasoning := "Because." }

def sC2 : SentimentAnalysisResult :=
  { overall_sentiment := "positive", sentiment_score := mkRat 8 10,
    market_sentiment := "Solid.", key_sentiment_drivers := ["growth"],
    confidence := mkRat 9 10 }

def vC2 : VolatilityPredictionResult :=
  { predicted_volatility := "high", volatility_score := mkRat 55 100,
    sentiment_impact := "SI.", event_impact := "EI.",
    confidence := mkRat 55 100 }

/-- A run in which only the Events completion call fails. -/
def oC2 : Oracle :=
  { coordinatorOutcome := Except.ok dC2,
    transcriptContent := "We had a strong quarter.",
    newsHeadlines := [],
    sentimentOutcome := Except.ok sC2,
    secFilingsChecked := false, secFilingResults := "",
    eventsOutcome := Except.error "LLM output did not match the declared schema",
    marketValidationNotes := [], historicalVolatility := mkRat 2 10,
    insights := [],
    volatilityOutcome := Except.ok vC2 }

def inpC2 : RunInput :=
  { user_query := "Analyze TSLA.", company_ticker := "TSLA",
    transcript_path := "data/input/tsla.txt" }

/-- A run in which the coordinator fails and then the transcript read
fails, all later stages succeeding. -/
def oC3 : Oracle :=
  { coordinatorOutcome := Except.error "boom",
    transcriptContent := "Error: Transcript file not found at data/input/x.txt",
    newsHeadlines := [],
    sentimentOutcome := Except.ok sC2,
    secFilingsChecked := false, secFilingResults := "",
    eventsOutcome := Except.ok
      { events := [], total_events_found := 0, verified_count := 0,
        confidence := mkRat 9 10 },
    marketValidationNotes := [], historicalVolatility := 0,
    insights := [],
    volatilityOutcome := Except.ok vC2 }

def inpC3 : RunInput :=
  { user_query := "Analyze NVDA.", company_ticker := "NVDA",
    transcript_path := "data/input/x.txt" }

/-- An events completion output violating both declared invariants
(confidence 1.5 ∉ [0,1], verified 5 > total 3); the pydantic models declare
no bounds, so it is schema-shaped. -/
def eC9 : SignificantEventDetectionResult :=
  { events := [], total_events_found := 3, verified_count := 5,
    confidence := mkRat 3 2 }

def oC9 : Oracle :=
  { coordinatorOutcome := Except.error "planner down",
    transcriptContent := "Quarter recap.",
    newsHeadlines := [],
    sentimentOutcome := Except.error "schema violation",
    secFilingsChecked := false, secFilingResults := "",
    eventsOutcome := Except.ok eC9,
    marketValidationNotes := [], historicalVolatility := 0,
    insights := [],
    volatilityOutcome := Except.error "schema violation" }

def inpC9 : RunInput :=
  { user_query := "Analyze AMD.", company_ticker := "AMD",
    transcript_path := "data/input/amd.txt" }

/-- A fully conforming oracle (every confidence in `[0,1]`,
verified ≤ total). -/
def oC9w : Oracle :=
  { coordinatorOutcome := Except.ok dC2,
    transcriptContent := "We had a strong quarter.",
    newsHeadlines := ["h1"],
    sentimentOutcome := Except.ok sC2,
    secFilingsChecked := true, secFilingResults := "{}",
    eventsOutcome := Except.ok
      { events := [], total_events_found := 2, verified_count := 1,
        confidence := mkRat 72 100 },
    marketValidationNotes := ["1-month price change: 2.00%"],
    historicalVolatility := mkRat 2 10,
    insights := [{ category := "c", focus_item := "Dividends", question := "Q?",
                   answer := "A.", confidence := mkRat 77 100 }],
    volatilityOutcome := Except.ok vC2 }

/-! ## Substring infrastructure lemmas -/

theorem subStr_iff {p : List Char} : ∀ {l : List Char},
    subStr p l = true ↔ p <:+: l
  | [] => by
    simp [subStr, List.isEmpty_iff]
  | c :: t => by
    rw [subStr]
    simp only [Bool.or_eq_true]
    rw [subStr_iff (l := t)]
    rw [List.infix_cons_iff]
    constructor
    · rintro (h | h)
      · exact Or.inl (List.isPrefixOf_iff_prefix.mp h)
      · exact Or.inr h
    · rintro (h | h)
      · exact Or.inl (List.isPrefixOf_iff_prefix.mpr h)
      · exact Or.inr h

theorem containsStr_iff {s pat : String} :
    containsStr s pat = true ↔ pat.data <:+: s.data := by
  rw [containsStr, subStr_iff]

theorem containsStr_appL {l r pat : String} (h : containsStr r pat = true) :
    containsStr (l ++ r) pat = true := by
  rw [containsStr_iff] at h ⊢
  rw [String.data_append]
  obtain ⟨x, y, hxy⟩ := h
  exact ⟨l.data ++ x, y, by rw [← hxy]; simp⟩

theorem containsStr_appR {l r pat : String} (h : containsStr l pat = true) :
    containsStr (l ++ r) pat = true := by
  rw [containsStr_iff] at h ⊢
  rw [String.data_append]
  obtain ⟨x, y, hxy⟩ := h
  exact ⟨x, y ++ r.data, by rw [← hxy]; simp⟩

theorem exceptBind_ok {ε α β : Type} {e : Except ε α} {f : α → Except ε β}
    {b : β} (h : e.bind f = Except.ok b) : ∃ a, e = Except.ok a ∧ f a = Except.ok b := by
  cases e with
  | ok a => exact ⟨a, rfl, h⟩
  | error m => exact absurd h (by simp [Except.bind])

/-! ## Claim theorems -/

/-- C4: The final-report extractor marks a confidence-summary row `Pass`
exactly when the status cell contains the one three-character sequence
`âœ“` the source tests for (the UTF-8 bytes of `✓` mis-decoded); the
formatter's actual cells `✓ Pass` and `⚠ Low` do not contain it, so every
formatter-produced row — and any other encoding of the glyph — is read as
`Fail`, with no error raised (the row still parses). -/
theorem confidence_status_glyph :
    (∀ cell : String, rowStatus cell = "Pass" ↔
      subStr ("âœ“").data cell.data = true) ∧
    rowStatus ("✓ Pass") = "Fail" ∧
    rowStatus ("⚠ Low") = "Fail" ∧
    (∀ conf thr : ℚ, rowStatus (guardrailStatus conf thr) = "Fail") ∧
    parseRow (("| Sentiment Analysis | 90.00% | 65.00% | ✓ Pass |").data) =
      Except.ok (some { agent := "Sentiment Analysis", confidence := mkRat 90 1,
                        threshold := mkRat 65 1, status := "Fail" }) := by
  refine ⟨?_, by decide, by decide, ?_, by decide⟩
  · intro cell
    unfold rowStatus
    by_cases h : subStr ("âœ“").data cell.data = true
    · simp [h]
    · simp [h]
  · intro conf thr
    unfold guardrailStatus
    by_cases h : thr ≤ conf
    · rw [if_pos h]; decide
    · rw [if_neg h]; decide

/-- C5: Guardrail evaluation is the pure function `guardrailStatus` of a
stage's confidence and its per-agent threshold; the default self-model
declares thresholds 0.65 / 0.70 / 0.60; confidence 0.72 against 0.65 renders
`✓ Pass`, 0.55 against 0.70 renders `⚠ Low`; the status takes no other
value, and the rendered table row is determined by the name, confidence and
threshold alone (so it is independent of any stage errors of the run). -/
theorem guardrail_status_pure :
    (getDefaultSelfModel.agent_capabilities.map (·.confidence_threshold) =
      [mkRat 65 100, mkRat 7 10, mkRat 6 10]) ∧
    (mkRat 65 100 = (0.65 : ℚ) ∧ mkRat 7 10 = (0.7 : ℚ) ∧
      mkRat 6 10 = (0.6 : ℚ)) ∧
    guardrailStatus (mkRat 72 100) (mkRat 65 100) = "✓ Pass" ∧
    guardrailStatus (mkRat 55 100) (mkRat 7 10) = "⚠ Low" ∧
    (∀ conf thr : ℚ, guardrailStatus conf thr = "✓ Pass" ∨
      guardrailStatus conf thr = "⚠ Low") ∧
    (∀ (name : String) (conf thr : ℚ),
      confRow name conf thr =
        "| " ++ name ++ " | " ++ pct2 conf ++ " | " ++ pct2 thr ++ " | " ++
          guardrailStatus conf thr ++ " |\n") := by
  refine ⟨by decide, ⟨?_, ?_, ?_⟩, by decide, by decide, ?_, fun _ _ _ => rfl⟩
  · rw [Rat.mkRat_eq_div]; norm_num
  · rw [Rat.mkRat_eq_div]; norm_num
  · rw [Rat.mkRat_eq_div]; norm_num
  · intro conf thr
    unfold guardrailStatus
    by_cases h : thr ≤ conf
    · rw [if_pos h]; exact Or.inl rfl
    · rw [if_neg h]; exact Or.inr rfl

/-- C10: when no persisted artifact file matches the ticker+stage filename
pattern, each extractor operation returns `none` — not a default-populated
record and not an exception (the codomain `Option (Except …)` separates the
three outcomes, and the `none` branch precedes all parsing). -/
theorem no_artifact_extractions_none (ticker now : String)
    (files : List FileEntry)
    (h1 : ∀ f ∈ files, globMatch ("sentiment_" ++ ticker ++ "_") f.name = false)
    (h2 : ∀ f ∈ files, globMatch ("event_detection_" ++ ticker ++ "_") f.name = false)
    (h3 : ∀ f ∈ files, globMatch ("volatility_" ++ ticker ++ "_") f.name = false)
    (h4 : ∀ f ∈ files, globMatch ("final_report_" ++ ticker ++ "_") f.name = false) :
    analyzeSentimentFiles ticker now files = none ∧
    detectEventsFiles ticker now files = none ∧
    predictVolatilityFiles ticker now files = none ∧
    generateFinalReportFiles ticker now files = none := by
  have e1 : files.filter (fun f => globMatch ("sentiment_" ++ ticker ++ "_") f.name) = [] := by
    rw [List.filter_eq_nil_iff]
    intro f hf
    simp [h1 f hf]
  have e2 : files.filter (fun f => globMatch ("event_detection_" ++ ticker ++ "_") f.name) = [] := by
    rw [List.filter_eq_nil_iff]
    intro f hf
    simp [h2 f hf]
  have e3 : files.filter (fun f => globMatch ("volatility_" ++ ticker ++ "_") f.name) = [] := by
    rw [List.filter_eq_nil_iff]
    intro f hf
    simp [h3 f hf]
  have e4 : files.filter (fun f => globMatch ("final_report_" ++ ticker ++ "_") f.name) = [] := by
    rw [List.filter_eq_nil_iff]
    intro f hf
    simp [h4 f hf]
  refine ⟨?_, ?_, ?_, ?_⟩
  · rw [analyzeSentimentFiles, e1]
  · rw [detectEventsFiles, e2]
  · rw [predictVolatilityFiles, e3]
  · rw [generateFinalReportFiles, e4]

set_option maxRecDepth 8000 in
set_option maxHeartbeats 1000000 in
/-- C1 counterexample: formatting the well-formed two-event result `evC1`
and extracting it back recovers only the first event — the second event is
dropped because the section pattern's consumed alternation `(?:###|\n##|\Z)`
swallows the next heading's `###` before `re.findall` resumes — so
`extract(format(r)) ≠ r` and not every event of the list is recovered. -/
theorem roundtrip_counterexample :
    detectEventsText "TSLA" "NOW"
        (formatEventReport "TSLA" "2025-01-01 10:00:00" evC1) =
      Except.ok { ticker := "TSLA", total_events := 2, verified_events := 1,
                  confidence := mkRat 90 1,
                  events := [{ etype := "merger", description := "Acquired X",
                               impact := "HIGH", source := "filing",
                               verified := true }],
                  tool_validations := [],
                  generated := "2025-01-01 10:00:00  " } ∧
    evC1.events.length = 2 := by
  exact ⟨by decide, by decide⟩

set_option maxRecDepth 8000 in
set_option maxHeartbeats 1000000 in
/-- C1 amended: the round trip is partial, as witnessed on well-formed
representative results: the scalar labelled fields (sentiment label, score,
event counts) are recovered, confidences are recovered on the percent
scale, and the first event of an event list is recovered in the extractor's
fields (impact uppercased, mentioned-in-call not extracted); but the event
immediately following a recovered event is dropped, and the per-stage
news-headline and tool-validation lists extract as empty because the
extractor's bold-label patterns do not match the per-stage formatter's
`##` section headings. -/
theorem roundtrip_partial :
    analyzeSentimentText "TSLA" "NOW"
        (formatSentimentReport "TSLA" "2025-01-01 10:00:00" seC1) =
      Except.ok { ticker := "TSLA", sentiment := "positive",
                  score := mkRat 8 10, confidence := mkRat 85 1,
                  market_summary := "Good vibes overall.",
                  key_drivers := ["growth", "margins"],
                  tool_validations := [], news_headlines := [],
                  generated := "2025-01-01 10:00:00  " } ∧
    seC1.sentiment_score = mkRat 8 10 ∧
    seC1.confidence = mkRat 85 100 ∧
    seC1.news_headlines = ["h1", "h2"] ∧
    seC1.tool_validations = ["v1"] ∧
    (detectEventsText "TSLA" "NOW"
        (formatEventReport "TSLA" "2025-01-01 10:00:00" evC1)).map
        (fun r => (r.total_events, r.verified_events, r.events)) =
      Except.ok (2, 1, [{ etype := "merger", description := "Acquired X",
                          impact := "HIGH", source := "filing",
                          verified := true }]) ∧
    evC1.events.map (·.event_type) = ["merger", "launch"] := by
  exact ⟨by decide, by decide, by decide, by decide, by decide, by decide,
         by decide⟩

/-- C3 counterexample: the coordinator fails (recording
`Coordinator error: boom`) and then the transcript read fails; the load
node's returned `errors` key replaces the stored list instead of being
concatenated with it, so the earlier error is absent from the final run
state. -/
theorem errors_replaced_counterexample :
    (step coordinatorNode oC3 (initialState inpC3)).errors =
      ["Coordinator error: boom"] ∧
    (runAnalysis oC3 "2025-01-01 10:00:00" inpC3).errors =
      ["Error: Transcript file not found at data/input/x.txt"] ∧
    ¬ ("Coordinator error: boom" ∈
        (runAnalysis oC3 "2025-01-01 10:00:00" inpC3).errors) := by
  exact ⟨by decide, by decide, by decide⟩

/-- C3 amended: the merge itself replaces the `errors` key (LangGraph
`LastValue` channels), but each agent stage returns the list it read plus
its own entry and the synthesize stage leaves it unchanged, so across those
stages the error list only grows; the transcript-load stage either leaves
the list unchanged or replaces it with exactly its own entry, so an error
recorded before a failing transcript load is dropped. -/
theorem errors_growth_amended (o : Oracle) (now : String) (s : GraphState) :
    s.errors <+: (step coordinatorNode o s).errors ∧
    ((step loadTranscriptNode o s).errors = s.errors ∨
      (step loadTranscriptNode o s).errors = [o.transcriptContent]) ∧
    s.errors <+: (step sentimentNode o s).errors ∧
    s.errors <+: (step eventsNode o s).errors ∧
    s.errors <+: (step volatilityNode o s).errors ∧
    (applyUpdate s (synthesizeNode now s)).errors = s.errors := by
  refine ⟨?_, ?_, ?_, ?_, ?_, rfl⟩
  · cases h : o.coordinatorOutcome <;>
      simp [step, applyUpdate, coordinatorNode, h, List.prefix_append]
  · cases h : ("Error").data.isPrefixOf o.transcriptContent.data
    · left
      simp [step, applyUpdate, loadTranscriptNode, h]
    · right
      simp [step, applyUpdate, loadTranscriptNode, h]
  · cases h : o.sentimentOutcome <;>
      simp [step, applyUpdate, sentimentNode, h, List.prefix_append]
  · cases h : o.eventsOutcome <;>
      simp [step, applyUpdate, eventsNode, h, List.prefix_append]
  · cases h : o.volatilityOutcome <;>
      simp [step, applyUpdate, volatilityNode, h, List.prefix_append]

/-- C9 counterexample: the result types enforce neither bound; a run whose
events completion returns confidence 1.5 with verified 5 > total 3 stores
that result unchanged in the final run state, violating both invariants. -/
theorem invariants_unenforced_counterexample :
    (runAnalysis oC9 "NOW" inpC9).event_detection_result = some eC9 ∧
    eC9.confidence = mkRat 3 2 ∧
    ¬ (eC9.confidence ≤ 1) ∧
    eC9.verified_count = 5 ∧
    eC9.total_events_found = 3 ∧
    ¬ (eC9.verified_count ≤ eC9.total_events_found) ∧
    ¬ stateConforms (runAnalysis oC9 "NOW" inpC9) := by
  refine ⟨by decide, by decide, by decide, by decide, by decide, by decide, ?_⟩
  intro hconf
  obtain ⟨-, -, hev, -⟩ := hconf
  have hmem : eC9 ∈ (runAnalysis oC9 "NOW" inpC9).event_detection_result := by
    rw [show (runAnalysis oC9 "NOW" inpC9).event_detection_result = some eC9
      from by decide]
    rfl
  have h2 := (hev eC9 hmem).2
  revert h2
  decide

theorem finalReport_contains_for_eventsNone
    (now t : String) (sm : FinSightSelfModel) (sv : SentimentAnalysisResult)
    (vv : VolatilityPredictionResult) (dec : Option MetacognitiveDecision)
    (gs : List GuardrailViolation) :
    containsStr (generateFinalReport now t sm (some sv) none (some vv) dec gs)
      "## 3. Significant Event Detection" = true ∧
    containsStr (generateFinalReport now t sm (some sv) none (some vv) dec gs)
      "*Event detection not available.*" = true ∧
    containsStr (generateFinalReport now t sm (some sv) none (some vv) dec gs)
      "**Overall Sentiment:** " = true ∧
    containsStr (generateFinalReport now t sm (some sv) none (some vv) dec gs)
      "**Market Sentiment Summary:**" = true ∧
    containsStr (generateFinalReport now t sm (some sv) none (some vv) dec gs)
      "**Volatility Score:** " = true ∧
    containsStr (generateFinalReport now t sm (some sv) none (some vv) dec gs)
      "**Key Volatility Drivers:**" = true := by
  unfold generateFinalReport sentSection eventsSectionF volSection
  refine ⟨?_, ?_, ?_, ?_, ?_, ?_⟩
  · -- the "\n---\n\n## 3. Significant Event Detection\n\n" literal
    -- (operand 5 of the 14-operand left-associated chain)
    apply containsStr_appR; apply containsStr_appR; apply containsStr_appR
    apply containsStr_appR; apply containsStr_appR; apply containsStr_appR
    apply containsStr_appR; apply containsStr_appR; apply containsStr_appR
    apply containsStr_appL; decide
  · -- `eventsSectionF none` (operand 6)
    apply containsStr_appR; apply containsStr_appR; apply containsStr_appR
    apply containsStr_appR; apply containsStr_appR; apply containsStr_appR
    apply containsStr_appR; apply containsStr_appR
    apply containsStr_appL; decide
  · -- leading literal of `sentSection (some sv)` (operand 4, then its
    -- operand 1 of 12)
    apply containsStr_appR; apply containsStr_appR; apply containsStr_appR
    apply containsStr_appR; apply containsStr_appR; apply containsStr_appR
    apply containsStr_appR; apply containsStr_appR; apply containsStr_appR
    apply containsStr_appR
    apply containsStr_appL
    apply containsStr_appR; apply containsStr_appR; apply containsStr_appR
    apply containsStr_appR; apply containsStr_appR; apply containsStr_appR
    apply containsStr_appR; apply containsStr_appR; apply containsStr_appR
    apply containsStr_appR; apply containsStr_appR
    decide
  · -- the "\n\n**Market Sentiment Summary:**\n" literal (operand 4, then
    -- its operand 7 of 12)
    apply containsStr_appR; apply containsStr_appR; apply containsStr_appR
    apply containsStr_appR; apply containsStr_appR; apply containsStr_appR
    apply containsStr_appR; apply containsStr_appR; apply containsStr_appR
    apply containsStr_appR
    apply containsStr_appL
    apply containsStr_appR; apply containsStr_appR; apply containsStr_appR
    apply containsStr_appR; apply containsStr_appR
    apply containsStr_appL; decide
  · -- the "  \n**Volatility Score:** " literal (operand 8, then its
    -- operand 3 of 18)
    apply containsStr_appR; apply containsStr_appR; apply containsStr_appR
    apply containsStr_appR; apply containsStr_appR; apply containsStr_appR
    apply containsStr_appL
    apply containsStr_appR; apply containsStr_appR; apply containsStr_appR
    apply containsStr_appR; apply containsStr_appR; apply containsStr_appR
    apply containsStr_appR; apply containsStr_appR; apply containsStr_appR
    apply containsStr_appR; apply containsStr_appR; apply containsStr_appR
    apply containsStr_appR; apply containsStr_appR; apply containsStr_appR
    apply containsStr_appL; decide
  · -- the "\n\n**Key Volatility Drivers:**\n" literal (operand 8, then
    -- its operand 9 of 18)
    apply containsStr_appR; apply containsStr_appR; apply containsStr_appR
    apply containsStr_appR; apply containsStr_appR; apply containsStr_appR
    apply containsStr_appL
    apply containsStr_appR; apply containsStr_appR; apply containsStr_appR
    apply containsStr_appR; apply containsStr_appR; apply containsStr_appR
    apply containsStr_appR; apply containsStr_appR; apply containsStr_appR
    apply containsStr_appL; decide

theorem finalReport_contains_no_violations (now t : String)
    (sm : FinSightSelfModel) (sent : Option SentimentAnalysisResult)
    (ev : Option SignificantEventDetectionResult)
    (vol : Option VolatilityPredictionResult)
    (dec : Option MetacognitiveDecision) :
    containsStr (generateFinalReport now t sm sent ev vol dec [])
      "No guardrail violations detected." = true := by
  unfold generateFinalReport guardSection
  -- operand 10 of the 14-operand chain, then operand 4 of the section's 8
  apply containsStr_appR; apply containsStr_appR; apply containsStr_appR
  apply containsStr_appR
  apply containsStr_appL
  apply containsStr_appR; apply containsStr_appR; apply containsStr_appR
  apply containsStr_appR
  apply containsStr_appL; decide

theorem guard_step_coord (o : Oracle) (s : GraphState) :
    (step coordinatorNode o s).guardrails_applied = s.guardrails_applied := by
  cases h : o.coordinatorOutcome <;>
    simp [step, applyUpdate, coordinatorNode, h]

theorem guard_step_load (o : Oracle) (s : GraphState) :
    (step loadTranscriptNode o s).guardrails_applied = s.guardrails_applied := by
  cases h : ("Error").data.isPrefixOf o.transcriptContent.data <;>
    simp [step, applyUpdate, loadTranscriptNode, h]

theorem guard_step_sent (o : Oracle) (s : GraphState) :
    (step sentimentNode o s).guardrails_applied = s.guardrails_applied := by
  cases h : o.sentimentOutcome <;>
    simp [step, applyUpdate, sentimentNode, h]

theorem guard_step_events (o : Oracle) (s : GraphState) :
    (step eventsNode o s).guardrails_applied = s.guardrails_applied := by
  cases h : o.eventsOutcome <;>
    simp [step, applyUpdate, eventsNode, h]

theorem guard_step_vol (o : Oracle) (s : GraphState) :
    (step volatilityNode o s).guardrails_applied = s.guardrails_applied := by
  cases h : o.volatilityOutcome <;>
    simp [step, applyUpdate, volatilityNode, h]

theorem guard_step_synth (now : String) (s : GraphState) :
    (applyUpdate s (synthesizeNode now s)).guardrails_applied =
      s.guardrails_applied := rfl

theorem stateConforms_coordStep (o : Oracle) (s : GraphState)
    (hc : exceptConf (fun d : MetacognitiveDecision => confOK d.confidence)
      o.coordinatorOutcome)
    (h : stateConforms s) : stateConforms (step coordinatorNode o s) := by
  obtain ⟨h1, h2, h3, h4⟩ := h
  cases hx : o.coordinatorOutcome with
  | ok d =>
    rw [hx] at hc
    exact ⟨by simpa [step, applyUpdate, coordinatorNode, hx] using hc,
           by simpa [step, applyUpdate, coordinatorNode, hx] using h2,
           by simpa [step, applyUpdate, coordinatorNode, hx] using h3,
           by simpa [step, applyUpdate, coordinatorNode, hx] using h4⟩
  | error m =>
    exact ⟨by simpa [step, applyUpdate, coordinatorNode, hx] using h1,
           by simpa [step, applyUpdate, coordinatorNode, hx] using h2,
           by simpa [step, applyUpdate, coordinatorNode, hx] using h3,
           by simpa [step, applyUpdate, coordinatorNode, hx] using h4⟩

theorem stateConforms_loadStep (o : Oracle) (s : GraphState)
    (h : stateConforms s) : stateConforms (step loadTranscriptNode o s) := by
  obtain ⟨h1, h2, h3, h4⟩ := h
  cases hx : ("Error").data.isPrefixOf o.transcriptContent.data <;>
    exact ⟨by simpa [step, applyUpdate, loadTranscriptNode, hx] using h1,
           by simpa [step, applyUpdate, loadTranscriptNode, hx] using h2,
           by simpa [step, applyUpdate, loadTranscriptNode, hx] using h3,
           by simpa [step, applyUpdate, loadTranscriptNode, hx] using h4⟩

theorem stateConforms_sentimentStep (o : Oracle) (s : GraphState)
    (hc : exceptConf (fun r : SentimentAnalysisResult => confOK r.confidence)
      o.sentimentOutcome)
    (h : stateConforms s) : stateConforms (step sentimentNode o s) := by
  obtain ⟨h1, h2, h3, h4⟩ := h
  cases hx : o.sentimentOutcome with
  | ok r =>
    rw [hx] at hc
    refine ⟨by simpa [step, applyUpdate, sentimentNode, hx] using h1, ?_,
            by simpa [step, applyUpdate, sentimentNode, hx] using h3,
            by simpa [step, applyUpdate, sentimentNode, hx] using h4⟩
    simp only [step, applyUpdate, sentimentNode, hx]
    split <;> simpa using hc
  | error m =>
    exact ⟨by simpa [step, applyUpdate, sentimentNode, hx] using h1,
           by simpa [step, applyUpdate, sentimentNode, hx] using h2,
           by simpa [step, applyUpdate, sentimentNode, hx] using h3,
           by simpa [step, applyUpdate, sentimentNode, hx] using h4⟩

theorem stateConforms_eventsStep (o : Oracle) (s : GraphState)
    (hc : exceptConf (fun r : SignificantEventDetectionResult =>
      confOK r.confidence ∧ r.verified_count ≤ r.total_events_found)
      o.eventsOutcome)
    (h : stateConforms s) : stateConforms (step eventsNode o s) := by
  obtain ⟨h1, h2, h3, h4⟩ := h
  cases hx : o.eventsOutcome with
  | ok r =>
    rw [hx] at hc
    refine ⟨by simpa [step, applyUpdate, eventsNode, hx] using h1,
            by simpa [step, applyUpdate, eventsNode, hx] using h2, ?_,
            by simpa [step, applyUpdate, eventsNode, hx] using h4⟩
    simp only [step, applyUpdate, eventsNode, hx]
    split <;> simpa using hc
  | error m =>
    exact ⟨by simpa [step, applyUpdate, eventsNode, hx] using h1,
           by simpa [step, applyUpdate, eventsNode, hx] using h2,
           by simpa [step, applyUpdate, eventsNode, hx] using h3,
           by simpa [step, applyUpdate, eventsNode, hx] using h4⟩

theorem stateConforms_volatilityStep (o : Oracle) (s : GraphState)
    (hc : exceptConf (fun r : VolatilityPredictionResult => confOK r.confidence)
      o.volatilityOutcome)
    (hi : ∀ a ∈ o.insights, confOK a.confidence)
    (h : stateConforms s) : stateConforms (step volatilityNode o s) := by
  obtain ⟨h1, h2, h3, h4⟩ := h
  cases hx : o.volatilityOutcome with
  | ok r =>
    rw [hx] at hc
    refine ⟨by simpa [step, applyUpdate, volatilityNode, hx] using h1,
            by simpa [step, applyUpdate, volatilityNode, hx] using h2,
            by simpa [step, applyUpdate, volatilityNode, hx] using h3, ?_⟩
    simp only [step, applyUpdate, volatilityNode, hx]
    split <;> simpa using ⟨hc, hi⟩
  | error m =>
    exact ⟨by simpa [step, applyUpdate, volatilityNode, hx] using h1,
           by simpa [step, applyUpdate, volatilityNode, hx] using h2,
           by simpa [step, applyUpdate, volatilityNode, hx] using h3,
           by simpa [step, applyUpdate, volatilityNode, hx] using h4⟩

theorem stateConforms_synthStep (now : String) (s : GraphState)
    (h : stateConforms s) :
    stateConforms (applyUpdate s (synthesizeNode now s)) := by
  obtain ⟨h1, h2, h3, h4⟩ := h
  exact ⟨by simpa [applyUpdate, synthesizeNode] using h1,
         by simpa [applyUpdate, synthesizeNode] using h2,
         by simpa [applyUpdate, synthesizeNode] using h3,
         by simpa [applyUpdate, synthesizeNode] using h4⟩

theorem stateConforms_initial (inp : RunInput) :
    stateConforms (initialState inp) := by
  refine ⟨?_, ?_, ?_, ?_⟩ <;> simp [initialState]

/-- C9 amended: the pipeline stores completion outputs unchanged (the
stages only append to list-valued annotation fields and attach insight
answers), so when every completion output and every insight answer of a run
satisfies the invariants — confidences in `[0,1]`, verified ≤ total — every
result stored in every reachable state of the run satisfies them; the
pydantic result types themselves enforce neither bound. -/
theorem invariants_from_oracle (o : Oracle) (now : String) (inp : RunInput)
    (h : oracleConforms o) : ∀ s ∈ statesList o now inp, stateConforms s := by
  obtain ⟨hc, hs, he, hv, hi⟩ := h
  have c0 := stateConforms_initial inp
  have c1 := stateConforms_coordStep o _ hc c0
  have c2 := stateConforms_loadStep o _ c1
  have c3 := stateConforms_sentimentStep o _ hs c2
  have c4 := stateConforms_eventsStep o _ he c3
  have c5 := stateConforms_volatilityStep o _ hv hi c4
  have c6 := stateConforms_synthStep now _ c5
  intro s hmem
  simp only [statesList, List.mem_cons, List.not_mem_nil, or_false] at hmem
  rcases hmem with rfl | rfl | rfl | rfl | rfl | rfl | rfl
  · exact c0
  · exact c1
  · exact c2
  · exact c3
  · exact c4
  · exact c5
  · exact c6

/-- C9 amended witness: a fully conforming oracle; the final state of its
run (a reachable state) satisfies the invariants. -/
theorem invariants_from_oracle_witness :
    stateConforms (runAnalysis oC9w "NOW" inpC3) :=
  invariants_from_oracle oC9w "NOW" inpC3 (by decide)
    (runAnalysis oC9w "NOW" inpC3)
    (by simp [statesList, runAnalysis, List.mem_cons])

/-- C2: when the Events stage's completion call fails (SchemaViolation)
while Sentiment and Volatility succeed (and the coordinator and transcript
load do not fail), the run still completes with a synthesized final report
whose Significant Event Detection section reads `not available`, whose
Sentiment and Volatility sections are populated from the stored results,
and whose run state carries exactly one error entry —
`Event detection error: …`. -/
theorem events_schema_violation_fail_soft
    (o : Oracle) (inp : RunInput) (now : String)
    (d : MetacognitiveDecision) (sres : SentimentAnalysisResult)
    (vres : VolatilityPredictionResult) (emsg : String)
    (hc : o.coordinatorOutcome = Except.ok d)
    (hl : ("Error").data.isPrefixOf o.transcriptContent.data = false)
    (hs : o.sentimentOutcome = Except.ok sres)
    (he : o.eventsOutcome = Except.error emsg)
    (hv : o.volatilityOutcome = Except.ok vres) :
    (runAnalysis o now inp).errors = ["Event detection error: " ++ emsg] ∧
    (runAnalysis o now inp).event_detection_result = none ∧
    (runAnalysis o now inp).sentiment_result.isSome = true ∧
    (runAnalysis o now inp).volatility_result.isSome = true ∧
    ∃ rep, (runAnalysis o now inp).final_report = some rep ∧
      containsStr rep "## 3. Significant Event Detection" = true ∧
      containsStr rep "*Event detection not available.*" = true ∧
      containsStr rep "**Overall Sentiment:** " = true ∧
      containsStr rep "**Market Sentiment Summary:**" = true ∧
      containsStr rep "**Volatility Score:** " = true ∧
      containsStr rep "**Key Volatility Drivers:**" = true := by
  have herr : (runAnalysis o now inp).errors =
      ["Event detection error: " ++ emsg] := by
    simp [runAnalysis, step, initialState, applyUpdate, coordinatorNode,
      loadTranscriptNode, sentimentNode, eventsNode, volatilityNode,
      synthesizeNode, hc, hl, hs, he, hv]
  have hev : (runAnalysis o now inp).event_detection_result = none := by
    simp [runAnalysis, step, initialState, applyUpdate, coordinatorNode,
      loadTranscriptNode, sentimentNode, eventsNode, volatilityNode,
      synthesizeNode, hc, hl, hs, he, hv]
  have hsentS : (runAnalysis o now inp).sentiment_result.isSome = true := by
    simp [runAnalysis, step, initialState, applyUpdate, coordinatorNode,
      loadTranscriptNode, sentimentNode, eventsNode, volatilityNode,
      synthesizeNode, hc, hl, hs, he, hv]
  have hvolS : (runAnalysis o now inp).volatility_result.isSome = true := by
    simp [runAnalysis, step, initialState, applyUpdate, coordinatorNode,
      loadTranscriptNode, sentimentNode, eventsNode, volatilityNode,
      synthesizeNode, hc, hl, hs, he, hv]
  have hdec : (runAnalysis o now inp).metacognitive_decision = some d := by
    simp [runAnalysis, step, initialState, applyUpdate, coordinatorNode,
      loadTranscriptNode, sentimentNode, eventsNode, volatilityNode,
      synthesizeNode, hc, hl, hs, he, hv]
  have hga : (runAnalysis o now inp).guardrails_applied = [] := by
    simp only [runAnalysis]
    rw [guard_step_synth, guard_step_vol, guard_step_events, guard_step_sent,
        guard_step_load, guard_step_coord]
    rfl
  have hfin : (runAnalysis o now inp).final_report =
      some (generateFinalReport now inp.company_ticker getDefaultSelfModel
        ((runAnalysis o now inp).sentiment_result)
        ((runAnalysis o now inp).event_detection_result)
        ((runAnalysis o now inp).volatility_result)
        ((runAnalysis o now inp).metacognitive_decision)
        ((runAnalysis o now inp).guardrails_applied)) := rfl
  obtain ⟨sv, hsv⟩ := Option.isSome_iff_exists.mp hsentS
  obtain ⟨vv, hvv⟩ := Option.isSome_iff_exists.mp hvolS
  refine ⟨herr, hev, hsentS, hvolS,
    generateFinalReport now inp.company_ticker getDefaultSelfModel
      (some sv) none (some vv) (some d) [], ?_, ?_, ?_, ?_, ?_, ?_, ?_⟩
  · rw [hfin, hsv, hev, hvv, hdec, hga]
  · exact (finalReport_contains_for_eventsNone now inp.company_ticker
      getDefaultSelfModel sv vv (some d) []).1
  · exact (finalReport_contains_for_eventsNone now inp.company_ticker
      getDefaultSelfModel sv vv (some d) []).2.1
  · exact (finalReport_contains_for_eventsNone now inp.company_ticker
      getDefaultSelfModel sv vv (some d) []).2.2.1
  · exact (finalReport_contains_for_eventsNone now inp.company_ticker
      getDefaultSelfModel sv vv (some d) []).2.2.2.1
  · exact (finalReport_contains_for_eventsNone now inp.company_ticker
      getDefaultSelfModel sv vv (some d) []).2.2.2.2.1
  · exact (finalReport_contains_for_eventsNone now inp.company_ticker
      getDefaultSelfModel sv vv (some d) []).2.2.2.2.2

/-- C2 witness at a concrete run in which only the Events completion call
fails. -/
theorem events_schema_violation_fail_soft_witness :
    (runAnalysis oC2 "NOW" inpC2).errors =
      ["Event detection error: " ++ "LLM output did not match the declared schema"] ∧
    (runAnalysis oC2 "NOW" inpC2).event_detection_result = none ∧
    (runAnalysis oC2 "NOW" inpC2).sentiment_result.isSome = true ∧
    (runAnalysis oC2 "NOW" inpC2).volatility_result.isSome = true ∧
    ∃ rep, (runAnalysis oC2 "NOW" inpC2).final_report = some rep ∧
      containsStr rep "## 3. Significant Event Detection" = true ∧
      containsStr rep "*Event detection not available.*" = true ∧
      containsStr rep "**Overall Sentiment:** " = true ∧
      containsStr rep "**Market Sentiment Summary:**" = true ∧
      containsStr rep "**Volatility Score:** " = true ∧
      containsStr rep "**Key Volatility Drivers:**" = true :=
  events_schema_violation_fail_soft oC2 inpC2 "NOW" dC2 sC2 vC2
    "LLM output did not match the declared schema" rfl (by decide) rfl rfl rfl

/-- C6: in every reachable state of every run the guardrail-violation list
is empty — no node ever appends a GuardrailRecord (the coordinator merely
returns the list it read, and no other node touches it) — so the
synthesized final report always states `No guardrail violations detected.`,
whatever the measured confidences were. -/
theorem guardrails_never_populated (o : Oracle) (now : String)
    (inp : RunInput) :
    (∀ s ∈ statesList o now inp, s.guardrails_applied = []) ∧
    ∃ rep, (runAnalysis o now inp).final_report = some rep ∧
      containsStr rep "No guardrail violations detected." = true := by
  have g0 : (initialState inp).guardrails_applied = [] := rfl
  have g1 := (guard_step_coord o (initialState inp)).trans g0
  have g2 := (guard_step_load o _).trans g1
  have g3 := (guard_step_sent o _).trans g2
  have g4 := (guard_step_events o _).trans g3
  have g5 := (guard_step_vol o _).trans g4
  have g6 := (guard_step_synth now _).trans g5
  constructor
  · intro s hmem
    simp only [statesList, List.mem_cons, List.not_mem_nil, or_false] at hmem
    rcases hmem with rfl | rfl | rfl | rfl | rfl | rfl | rfl
    · exact g0
    · exact g1
    · exact g2
    · exact g3
    · exact g4
    · exact g5
    · exact g6
  · have hga : (runAnalysis o now inp).guardrails_applied = [] := g6
    have hfin : (runAnalysis o now inp).final_report =
        some (generateFinalReport now inp.company_ticker getDefaultSelfModel
          ((runAnalysis o now inp).sentiment_result)
          ((runAnalysis o now inp).event_detection_result)
          ((runAnalysis o now inp).volatility_result)
          ((runAnalysis o now inp).metacognitive_decision)
          ((runAnalysis o now inp).guardrails_applied)) := rfl
    refine ⟨generateFinalReport now inp.company_ticker getDefaultSelfModel
      ((runAnalysis o now inp).sentiment_result)
      ((runAnalysis o now inp).event_detection_result)
      ((runAnalysis o now inp).volatility_result)
      ((runAnalysis o now inp).metacognitive_decision) [], ?_, ?_⟩
    · rw [hfin, hga]
    · exact finalReport_contains_no_violations now inp.company_ticker
        getDefaultSelfModel _ _ _ _

/-- C7 counterexample: a text in which the `**Score:**` pattern is absent,
yet sentiment extraction raises (the matched `**Volatility Score:**`
capture `.` is not a valid float), refuting "never raises an exception". -/
theorem sentiment_extraction_raises :
    analyzeSentimentText "TSLA" "NOW" "**Volatility Score:** ." =
      Except.error "ValueError: could not convert string to float" ∧
    searchGo (matchClassLabel ("**Score:**") isNumDotDashC)
      (("**Volatility Score:** .").data) = none := by
  exact ⟨by decide, by decide⟩

/-- C7 amended: whenever metadata extraction succeeds (every matched
numeric capture parses as a float), sentiment extraction returns a result
rather than raising, and each absent field yields its documented default —
in particular a missing `**Score:**` line yields score 0.75, a missing
`**Sentiment:**` line yields "positive", a missing `**Confidence:**` line
yields 85.0. -/
theorem extraction_defaults (ticker now content : String) (md : PyMeta)
    (hok : extractMetadata content = Except.ok md) :
    ∃ r, analyzeSentimentText ticker now content = Except.ok r ∧
      (md.score = none → r.score = mkRat 75 100) ∧
      (md.sentiment = none → r.sentiment = "positive") ∧
      (md.confidence = none → r.confidence = mkRat 85 1) := by
  unfold analyzeSentimentText
  rw [hok]
  refine ⟨_, rfl, ?_, ?_, ?_⟩ <;> intro h <;> simp [h]

/-- C7 amended witness at the empty text (no pattern matches; all three
defaults are produced). -/
theorem extraction_defaults_witness :
    ∃ r, analyzeSentimentText "TSLA" "NOW" "" = Except.ok r ∧
      (({} : PyMeta).score = none → r.score = mkRat 75 100) ∧
      (({} : PyMeta).sentiment = none → r.sentiment = "positive") ∧
      (({} : PyMeta).confidence = none → r.confidence = mkRat 85 1) :=
  extraction_defaults "TSLA" "NOW" "" {} (by decide)

/-- C8 counterexample: an event artifact in which the
`**Total Events Found:**` / `**Verified Events:**` patterns fail to match
while one `### Event 1:` section does match: `detect_events` yields count 1
— `len(events)` — not the claimed default 0. -/
theorem event_count_default_counterexample :
    (detectEventsText "T" "NOW" "### Event 1: launch\n\n- **Impact:** HIGH\n\n").map
        (fun r => (r.total_events, r.verified_events, r.events.length)) =
      Except.ok (1, 1, 1) ∧
    searchGo (matchClassLabel ("**Total Events Found:**") Char.isDigit)
      (("### Event 1: launch\n\n- **Impact:** HIGH\n\n").data) = none ∧
    searchGo (matchClassLabel ("**Verified Events:**") Char.isDigit)
      (("### Event 1: launch\n\n- **Impact:** HIGH\n\n").data) = none := by
  exact ⟨by decide, by decide, by decide⟩

/-- C8 amended: when the count label patterns fail to match,
`detect_events` defaults each count to the number of extracted event
sections (0 exactly when no `### Event N:` section matches), while the
final-report extractor defaults its `events_detected` / `events_verified`
counts to 0 when its `**Events Detected:**` summary pattern is absent. -/
theorem event_count_defaults (ticker now content : String) (md : PyMeta)
    (hok : extractMetadata content = Except.ok md)
    (ht : md.total_events = none) (hv : md.verified_events = none) :
    (∃ r, detectEventsText ticker now content = Except.ok r ∧
      r.total_events = r.events.length ∧
      r.verified_events = r.events.length) ∧
    (∀ fr, generateFinalReportText ticker now content = Except.ok fr →
      searchGo matchEventsSummary content.data = none →
      fr.events_detected = 0 ∧ fr.events_verified = 0) := by
  constructor
  · unfold detectEventsText
    rw [hok]
    refine ⟨_, rfl, ?_, ?_⟩ <;> simp [ht, hv]
  · intro fr hfr hno
    unfold generateFinalReportText at hfr
    simp only [hno] at hfr
    obtain ⟨m1, hm1, hfr⟩ := exceptBind_ok hfr
    obtain ⟨m2, hm2, hfr⟩ := exceptBind_ok hfr
    obtain ⟨m3, hm3, hfr⟩ := exceptBind_ok hfr
    obtain ⟨m4, hm4, hfr⟩ := exceptBind_ok hfr
    obtain ⟨m5, hm5, hfr⟩ := exceptBind_ok hfr
    obtain ⟨m6, hm6, hfr⟩ := exceptBind_ok hfr
    obtain ⟨m7, hm7, hfr⟩ := exceptBind_ok hfr
    obtain ⟨m8, hm8, hfr⟩ := exceptBind_ok hfr
    cases hfr
    simp

/-- C8 amended witness on the one-event artifact with no count labels. -/
theorem event_count_defaults_witness :
    (∃ r, detectEventsText "T" "NOW"
        "### Event 1: launch\n\n- **Impact:** HIGH\n\n" = Except.ok r ∧
      r.total_events = r.events.length ∧
      r.verified_events = r.events.length) ∧
    (∀ fr, generateFinalReportText "T" "NOW"
        "### Event 1: launch\n\n- **Impact:** HIGH\n\n" = Except.ok fr →
      searchGo matchEventsSummary
        (("### Event 1: launch\n\n- **Impact:** HIGH\n\n") : String).data = none →
      fr.events_detected = 0 ∧ fr.events_verified = 0) :=
  event_count_defaults "T" "NOW" "### Event 1: launch\n\n- **Impact:** HIGH\n\n" {}
    (by decide) rfl rfl

/-- C10 witness: a directory holding one unrelated file. -/
theorem no_artifact_extractions_none_witness :
    analyzeSentimentFiles "AAPL" "NOW"
      [{ name := "notes.txt", mtime := 3, content := "x" }] = none ∧
    detectEventsFiles "AAPL" "NOW"
      [{ name := "notes.txt", mtime := 3, content := "x" }] = none ∧
    predictVolatilityFiles "AAPL" "NOW"
      [{ name := "notes.txt", mtime := 3, content := "x" }] = none ∧
    generateFinalReportFiles "AAPL" "NOW"
      [{ name := "notes.txt", mtime := 3, content := "x" }] = none :=
  no_artifact_extractions_none "AAPL" "NOW" _
    (by decide) (by decide) (by decide) (by decide)

end FinSight

